import Mathlib

/-!
Shallow embedding of the TimeCrisisCharts core calculation engine
(`astro_engine.py` and the timeline widgets): aspect detection,
progressions, the solar-arc transformation, the return search, the
house lookup and the timeline aspect-event sweep.  Python floats are
modelled as rationals; Python datetimes as a day number (the calendar
date) together with a rational time-of-day; ephemeris queries are
passed in as function parameters.
-/

/-- Python's built-in `abs` on a rational. -/
def qabs (x : ℚ) : ℚ := if x < 0 then -x else x

/-- Python's `%` on rationals (sign follows the divisor, floor division). -/
def pymod (x y : ℚ) : ℚ := x - y * ⌊x / y⌋

/-- Python string `<` (code-point lexicographic) on the character lists. -/
def strLtB : List Char → List Char → Bool
  | [], [] => false
  | [], _ :: _ => true
  | _ :: _, [] => false
  | a :: as, b :: bs =>
      if a.val < b.val then true
      else if b.val < a.val then false
      else strLtB as bs

/-- Python string `<`. -/
def pyStrLt (a b : String) : Bool := strLtB a.data b.data

/-- Python's `sorted([a, b])` on two strings, as a pair. -/
def sortedPair (a b : String) : String × String :=
  if pyStrLt b a then (b, a) else (a, b)

/-- The ten classical bodies, in the insertion order of the `PLANETS`
dict of `astro_engine.py`. -/
def PLANETS : List String :=
  ["Sun", "Moon", "Mercury", "Venus", "Mars",
   "Jupiter", "Saturn", "Uranus", "Neptune", "Pluto"]

/-- An emitted aspect record, mirroring the dict built by
`calculate_aspects` / `find_cross_aspects` in `astro_engine.py`. -/
structure Aspect where
  p1 : String
  aspect : String
  p2 : String
  name : String
  orb : ℚ
  deriving Repr, DecidableEq

/-- The `aspect_definitions` dict of `calculate_aspects`
(`astro_engine.py:33`), in insertion order. -/
def aspect_definitions : List (String × ℚ) :=
  [("Conjunction", 0), ("Opposition", 180), ("Trine", 120),
   ("Square", 90), ("Sextile", 60)]

/-- `angle = abs(p1_pos - p2_pos); if angle > 180: angle = 360 - angle`
(`astro_engine.py:42-43`). -/
def reduceAngle (x : ℚ) : ℚ :=
  let a := qabs x
  if a > 180 then 360 - a else a

/-- The inner loop of `calculate_aspects` for one unordered pair:
test every aspect definition, emit a record with lexicographically
sorted body names when `current_orb <= orb` (`astro_engine.py:45-54`). -/
def pairAspects (p1_name p2_name : String) (p1_pos p2_pos orb : ℚ) : List Aspect :=
  let angle := reduceAngle (p1_pos - p2_pos)
  aspect_definitions.filterMap (fun d =>
    let current_orb := qabs (angle - d.2)
    if current_orb ≤ orb then
      let sp := sortedPair p1_name p2_name
      some ⟨sp.1, d.1, sp.2, sp.1 ++ " " ++ d.1 ++ " " ++ sp.2, current_orb⟩
    else none)

/-- `calculate_aspects(planets, orb)` (`astro_engine.py:29-55`): every
unordered pair `(i, j)` with `i < j` in dict insertion order, against
the five defined aspect kinds.  The placement is the list of
`(name, (longitude, speed))` items in insertion order. -/
def calculate_aspects : List (String × ℚ × ℚ) → ℚ → List Aspect
  | [], _ => []
  | p :: rest, orb =>
      rest.flatMap (fun q => pairAspects p.1 q.1 p.2.1 q.2.1 orb)
        ++ calculate_aspects rest orb

/-- The inner loop of `find_cross_aspects` for one ordered pair: names
are not sorted (`astro_engine.py:67-75`). -/
def crossPairAspects (p1_name p2_name : String) (p1_pos p2_pos orb : ℚ) : List Aspect :=
  let angle := reduceAngle (p1_pos - p2_pos)
  aspect_definitions.filterMap (fun d =>
    let current_orb := qabs (angle - d.2)
    if current_orb ≤ orb then
      some ⟨p1_name, d.1, p2_name, p1_name ++ " " ++ d.1 ++ " " ++ p2_name, current_orb⟩
    else none)

/-- `find_cross_aspects(planets1, planets2, orb)` (`astro_engine.py:57-76`). -/
def find_cross_aspects (planets1 planets2 : List (String × ℚ × ℚ)) (orb : ℚ) : List Aspect :=
  planets1.flatMap (fun p => planets2.flatMap (fun q => crossPairAspects p.1 q.1 p.2.1 q.2.1 orb))

/-- A timezone-aware UTC instant: calendar day number (`.date()`) and
time of day.  `datetime + timedelta(days=k)` adds to the day part only. -/
structure Instant where
  day : ℤ
  tod : ℚ
  deriving Repr, DecidableEq

/-- `calculate_transits(calculation_date)` (`astro_engine.py:80-85`):
positions of the ten bodies, read off the ephemeris `eph`. -/
def calculate_transits (eph : Instant → String → ℚ × ℚ) (calculation_date : Instant) :
    List (String × ℚ × ℚ) :=
  PLANETS.map (fun name => (name, (eph calculation_date name).1, (eph calculation_date name).2))

/-- `(target_date.date() - birth_date.date()).days` (`astro_engine.py:89`). -/
def date_diff_days (birth_date target_date : Instant) : ℤ := target_date.day - birth_date.day

/-- `birth_date + timedelta(days=k)`. -/
def add_days (t : Instant) (k : ℤ) : Instant := ⟨t.day + k, t.tod⟩

/-- `calculate_secondary_progressions(birth_date, target_date)`
(`astro_engine.py:87-95`). -/
def calculate_secondary_progressions (eph : Instant → String → ℚ × ℚ)
    (birth_date target_date : Instant) : List (String × ℚ × ℚ) :=
  let days_offset := date_diff_days birth_date target_date
  let progression_date := add_days birth_date days_offset
  PLANETS.map (fun name => (name, (eph progression_date name).1, (eph progression_date name).2))

/-- `solar_arc = prog_sun_lon - natal_sun_lon; if solar_arc < 0:
solar_arc += 360` (`astro_engine.py:108-110`). -/
def solar_arc_shift (natal_sun_lon prog_sun_lon : ℚ) : ℚ :=
  let solar_arc := prog_sun_lon - natal_sun_lon
  if solar_arc < 0 then solar_arc + 360 else solar_arc

/-- The body loop of `calculate_solar_arc_progressions`
(`astro_engine.py:112-118`): each natal body is shifted by the arc,
modulo 360, and keeps its natal speed.  The two Sun longitudes are the
ephemeris values read at the natal and progressed instants. -/
def calculate_solar_arc_progressions (natal_planets : List (String × ℚ × ℚ))
    (natal_sun_lon prog_sun_lon : ℚ) : List (String × ℚ × ℚ) :=
  let solar_arc := solar_arc_shift natal_sun_lon prog_sun_lon
  natal_planets.map (fun p => (p.1, pymod (p.2.1 + solar_arc) 360, p.2.2))

/-- `angle_diff = natal_lon - current_lon; if angle_diff > 180:
angle_diff -= 360; if angle_diff < -180: angle_diff += 360`
(`astro_engine.py:128-130`). -/
def normDiff (d : ℚ) : ℚ :=
  let d1 := if d > 180 then d - 360 else d
  if d1 < -180 then d1 + 360 else d1

/-- The `1e-9` stationary-speed threshold of `_find_return_jd`. -/
def RETURN_EPS : ℚ := 1 / 1000000000

/-- The refinement loop of `_find_return_jd` (`astro_engine.py:123-136`)
with explicit fuel; the ephemeris `eph` maps a Julian day to
`(longitude, speed)`. -/
def findReturnLoop (eph : ℚ → ℚ × ℚ) (natal_lon : ℚ) : ℕ → ℚ → ℚ
  | 0, t_jd => t_jd
  | n + 1, t_jd =>
      let p := eph t_jd
      let angle_diff := normDiff (natal_lon - p.1)
      if qabs p.2 > RETURN_EPS then
        findReturnLoop eph natal_lon n (t_jd + angle_diff / p.2)
      else t_jd

/-- `_find_return_jd(natal_lon, body_id, start_jd)` (`astro_engine.py:120-137`):
exactly five refinement iterations. -/
def find_return_jd (eph : ℚ → ℚ × ℚ) (natal_lon start_jd : ℚ) : ℚ :=
  findReturnLoop eph natal_lon 5 start_jd

/-- Number of advance steps actually taken by `findReturnLoop`. -/
def findReturnSteps (eph : ℚ → ℚ × ℚ) (natal_lon : ℚ) : ℕ → ℚ → ℕ
  | 0, _ => 0
  | n + 1, t_jd =>
      let p := eph t_jd
      let angle_diff := normDiff (natal_lon - p.1)
      if qabs p.2 > RETURN_EPS then
        findReturnSteps eph natal_lon n (t_jd + angle_diff / p.2) + 1
      else 0

/-- `TimelineGridWidget._get_house_for_position(position)`
(`timeline_grid_widget.py:408-418`): linear scan over the 11 cusp
intervals, then the wrap-around test for house 12. -/
def get_house_for_position (natal_houses : List ℚ) (position : ℚ) : String :=
  if natal_houses.isEmpty then "N/A"
  else
    match (List.range 11).find? (fun i =>
        decide (natal_houses.getD i 0 ≤ position ∧ position < natal_houses.getD (i + 1) 0)) with
    | some i => toString (i + 1)
    | none =>
        if (natal_houses.getD 11 0 ≤ position ∧ position < 360) ∨
            (0 ≤ position ∧ position < natal_houses.getD 0 0) then "12"
        else "N/A"

/-- Number of indices at which the cyclic successor cusp is strictly
smaller (the wrap-around positions of the cusp sequence). -/
def cyclicDescents (houses : List ℚ) : ℕ :=
  ((List.range houses.length).filter (fun i =>
      decide (houses.getD ((i + 1) % houses.length) 0 < houses.getD i 0))).length

/-- The HouseCusps data-model invariant: 12 longitudes in `[0, 360)`,
non-decreasing modulo 360 with exactly one wrap-around. -/
def houseCuspInvariant (houses : List ℚ) : Prop :=
  houses.length = 12 ∧ (∀ x ∈ houses, 0 ≤ x ∧ x < 360) ∧ cyclicDescents houses = 1

/-- The lunar-progression filter of `_calculate_daily_aspects`
(`timeline_grid_widget.py:91-93`). -/
def lunar_prog_aspects (prog_aspects : List Aspect) : List Aspect :=
  prog_aspects.filter (fun a => a.p1 == "Moon" && !(a.p2 == "Moon"))

/-- The other-progression filter of `_calculate_daily_aspects`
(`timeline_grid_widget.py:96-98`). -/
def other_prog_aspects (prog_aspects : List Aspect) : List Aspect :=
  prog_aspects.filter (fun a => !(a.p1 == "Moon") && !(a.p2 == "Moon"))

/-- One aspect of one day's snapshot for one tier, as consumed by
`TimelineGridWidget._process_aspect_events`: the dict fields `name`,
`orb`, `aspect`, `p1`, `p2`, together with the transiting planet's
longitude `transit_pos[p1][0]` for that day (used only in the transit
tier, `timeline_grid_widget.py:135`). -/
structure DayAspect where
  name : String
  orb : ℚ
  aspect : String
  p1 : String
  p2 : String
  p1pos : ℚ
  deriving Repr, DecidableEq

/-- One orb reading `(current_date, orb)` or, in the transit tier,
`(current_date, orb, p1_pos)` (`timeline_grid_widget.py:136-138`).
Dates are day numbers. -/
structure Reading where
  date : ℤ
  orb : ℚ
  pos : Option ℚ
  deriving Repr, DecidableEq

/-- An in-progress record of `active_aspects`:
`{'start': date, 'orb_readings': [...], 'data': aspect_dict}`
(`timeline_grid_widget.py:128-132`). -/
structure ActiveRec where
  start : ℤ
  readings : List Reading
  data : DayAspect
  deriving Repr, DecidableEq

/-- A finished aspect event dict (`timeline_grid_widget.py:151-164`),
plus the merge-only fields `exact_dates` and `p1_pos_at_exact`
(`timeline_grid_widget.py:179,195-199`), absent (empty / `none`) on
raw events. -/
structure AspectEvent where
  name : String
  start : ℤ
  endD : ℤ
  tier : String
  exact_date : ℤ
  orb_readings : List Reading
  aspect : String
  p1 : String
  p2 : String
  p1_pos_at_exact_pass : Option ℚ
  p1_pos_at_exact : Option ℚ
  exact_dates : List ℤ
  deriving Repr, DecidableEq

/-- The reading appended for a present pair on one day: transits also
store the transiting planet's position (`timeline_grid_widget.py:133-138`). -/
def mkReading (tier : String) (today : ℤ) (a : DayAspect) : Reading :=
  ⟨today, a.orb, if tier = "transits" then some a.p1pos else none⟩

/-- `{a['name']: a for a in day_data.get(tier, [])}`: a Python dict
comprehension keeps first-insertion key order and the last value per
key (`timeline_grid_widget.py:123`). -/
def buildTodays (l : List DayAspect) : List DayAspect :=
  l.foldl (fun acc a =>
    if acc.any (fun b => b.name == a.name) then
      acc.map (fun b => if b.name == a.name then a else b)
    else acc ++ [a]) []

/-- Append a reading to one record. -/
def addReading (tier : String) (today : ℤ) (a : DayAspect) (rec : ActiveRec) : ActiveRec :=
  { rec with readings := rec.readings ++ [mkReading tier today a] }

/-- The "newly started or ongoing" pass of one day
(`timeline_grid_widget.py:126-138`): open a record for an untracked
name, then append today's reading for every present pair.
`active_aspects` is modelled as an insertion-ordered association list. -/
def stepPresent (tier : String) (today : ℤ) (active : List (String × ActiveRec))
    (todays : List DayAspect) : List (String × ActiveRec) :=
  todays.foldl (fun act a =>
    if act.any (fun p => p.1 == a.name) then
      act.map (fun p => if p.1 == a.name then (p.1, addReading tier today a p.2) else p)
    else act ++ [(a.name, addReading tier today a ⟨today, [], a⟩)]) active

/-- The scan of Python's `min(readings, key=lambda x: x[1])`: walk the
remaining readings, replacing the current best only on a strictly
smaller orb (so ties keep the earliest reading). -/
def minReadingFold (m : Reading) : List Reading → Reading
  | [] => m
  | r :: rest => minReadingFold (if r.orb < m.orb then r else m) rest

/-- Python's `min(readings, key=lambda x: x[1])`: the first reading of
minimal orb (`timeline_grid_widget.py:148`); `none` on an empty list. -/
def minReadingByOrb : List Reading → Option Reading
  | [] => none
  | r :: rest => some (minReadingFold r rest)

/-- Build the finished event emitted when a tracked pair goes absent
(`timeline_grid_widget.py:143-167`); `none` when the record has no
readings (`if not event['orb_readings']: continue`). -/
def mkFinalEvent (tier : String) (today : ℤ) (name : String) (rec : ActiveRec) :
    Option AspectEvent :=
  match minReadingByOrb rec.readings with
  | none => none
  | some exact_reading =>
      some { name := name, start := rec.start, endD := today, tier := tier,
             exact_date := exact_reading.date, orb_readings := rec.readings,
             aspect := rec.data.aspect, p1 := rec.data.p1, p2 := rec.data.p2,
             p1_pos_at_exact_pass :=
               if tier = "transits" then exact_reading.pos else none,
             p1_pos_at_exact := none, exact_dates := [] }

/-- The day loop of step 1 of `_process_aspect_events`
(`timeline_grid_widget.py:119-167`), recursing on the remaining number
of days.  Each day: rebuild today's name dict, process present pairs,
then close and emit every tracked pair that is absent today.  (CPython
iterates the ended names in unspecified `set` order; closed pairs are
emitted here in tracking order, which fixes one of the permutations.) -/
def processTierAux (tier : String) (snap : ℤ → List DayAspect) :
    ℤ → ℕ → List (String × ActiveRec) → List AspectEvent
  | _, 0, _ => []
  | today, n + 1, active =>
      let todays := buildTodays (snap today)
      let active1 := stepPresent tier today active todays
      let kept := active1.filter (fun p => todays.any (fun a => a.name == p.1))
      let closed := active1.filter (fun p => !todays.any (fun a => a.name == p.1))
      closed.filterMap (fun p => mkFinalEvent tier today p.1 p.2)
        ++ processTierAux tier snap (today + 1) n kept

/-- Step 1 of `_process_aspect_events` for one tier: walk
`range(num_days + 2)` with `current_date = start_date + (i - 1)` days
(`timeline_grid_widget.py:117-121`); pairs still tracked when the loop
ends are discarded with the local `active_aspects`. -/
def processTier (tier : String) (snap : ℤ → List DayAspect) (start_date : ℤ)
    (num_days : ℕ) : List AspectEvent :=
  processTierAux tier snap (start_date - 1) (num_days + 2) []

/-- One step of the transit multi-pass merge
(`timeline_grid_widget.py:174-187`): group by name into an
insertion-ordered association list; on a repeat, take the min start,
max end, append the pass's exact date and extend the readings. -/
def mergeStep (merged : List (String × AspectEvent)) (e : AspectEvent) :
    List (String × AspectEvent) :=
  if merged.any (fun p => p.1 == e.name) then
    merged.map (fun p =>
      if p.1 == e.name then
        (p.1, { p.2 with
                start := min p.2.start e.start,
                endD := max p.2.endD e.endD,
                exact_dates := p.2.exact_dates ++ [e.exact_date],
                orb_readings := p.2.orb_readings ++ e.orb_readings })
      else p)
  else merged ++ [(e.name, { e with exact_dates := [e.exact_date] })]

/-- Step 4 of `_process_aspect_events`
(`timeline_grid_widget.py:189-200`): pick the globally most exact
reading across all merged passes, carry its transit position, and sort
the per-pass exact dates chronologically. -/
def finalizeMerged (p : String × AspectEvent) : Option AspectEvent :=
  match minReadingByOrb p.2.orb_readings with
  | none => none
  | some most_exact_reading =>
      some { p.2 with
             exact_date := most_exact_reading.date,
             p1_pos_at_exact := most_exact_reading.pos,
             exact_dates := p.2.exact_dates.insertionSort (· ≤ ·) }

/-- Steps 3 and 4 of `_process_aspect_events`: merge multi-pass
transit events into single display events. -/
def mergeTransits (transit_events : List AspectEvent) : List AspectEvent :=
  (transit_events.foldl mergeStep []).filterMap finalizeMerged

/-- The tier list of `_process_aspect_events` (`timeline_grid_widget.py:117`). -/
def TIERS : List String := ["lunar_prog", "other_prog", "transits"]

/-- `TimelineGridWidget._process_aspect_events`
(`timeline_grid_widget.py:108-203`), parameterised by the daily aspect
cache `snap : tier → date → today's aspects`: sweep each tier into raw
events, then merge multi-pass transits and pass progression events
through unchanged. -/
def process_aspect_events (snap : String → ℤ → List DayAspect) (start_date : ℤ)
    (months_to_display : ℕ) : List AspectEvent :=
  let num_days := months_to_display * 30
  let raw_events := TIERS.flatMap (fun tier => processTier tier (snap tier) start_date num_days)
  let prog_events := raw_events.filter (fun e => !(e.tier == "transits"))
  let transit_events := raw_events.filter (fun e => e.tier == "transits")
  prog_events ++ mergeTransits transit_events

/-- Floor modulo 360 of a value already in `(-360, 360)`. -/
lemma pymod_360_of_bounds (d : ℚ) (hlo : -360 < d) (hhi : d < 360) :
    pymod d 360 = if d < 0 then d + 360 else d := by
  unfold pymod
  by_cases h : d < 0
  · have hf : ⌊d / 360⌋ = -1 := by
      rw [Int.floor_eq_iff]
      constructor
      · push_cast
        rw [le_div_iff (by norm_num : (0:ℚ) < 360)]
        linarith
      · push_cast
        rw [div_lt_iff (by norm_num : (0:ℚ) < 360)]
        linarith
    rw [hf, if_pos h]
    push_cast
    ring
  · have hf : ⌊d / 360⌋ = 0 := by
      rw [Int.floor_eq_iff]
      constructor
      · push_cast
        rw [le_div_iff (by norm_num : (0:ℚ) < 360)]
        linarith
      · push_cast
        rw [div_lt_iff (by norm_num : (0:ℚ) < 360)]
        linarith
    rw [hf, if_neg h]
    push_cast
    ring

/-- C6: solar-arc progression computes `arc = (progressed Sun − natal Sun)`
normalized to be non-negative mod 360, and maps every natal body to
`(natal longitude + arc) mod 360` with the natal speed carried over
unchanged. -/
theorem solar_arc_progression_spec (natal_sun_lon prog_sun_lon : ℚ)
    (hn0 : 0 ≤ natal_sun_lon) (hn1 : natal_sun_lon < 360)
    (hp0 : 0 ≤ prog_sun_lon) (hp1 : prog_sun_lon < 360)
    (natal_planets : List (String × ℚ × ℚ)) :
    solar_arc_shift natal_sun_lon prog_sun_lon = pymod (prog_sun_lon - natal_sun_lon) 360 ∧
    0 ≤ solar_arc_shift natal_sun_lon prog_sun_lon ∧
    calculate_solar_arc_progressions natal_planets natal_sun_lon prog_sun_lon
      = natal_planets.map (fun p =>
          (p.1, pymod (p.2.1 + solar_arc_shift natal_sun_lon prog_sun_lon) 360, p.2.2)) := by
  have hb := pymod_360_of_bounds (prog_sun_lon - natal_sun_lon) (by linarith) (by linarith)
  refine ⟨?_, ?_, rfl⟩
  · rw [hb]
    rfl
  · simp only [solar_arc_shift]
    split_ifs with h <;> linarith

/-- Closed instance of `solar_arc_progression_spec`: natal Sun 54.3°,
progressed Sun 60.1°, arc 5.8°, a body at 359° lands at 4.8° with its
natal speed. -/
theorem solar_arc_progression_witness :
    solar_arc_shift 54.3 60.1 = pymod (60.1 - 54.3) 360 ∧
    solar_arc_shift 54.3 60.1 = 5.8 ∧
    calculate_solar_arc_progressions [("Moon", 359, 13.2)] 54.3 60.1 = [("Moon", 4.8, 13.2)] := by
  have h := solar_arc_progression_spec 54.3 60.1 (by norm_num) (by norm_num)
    (by norm_num) (by norm_num) [("Moon", 359, 13.2)]
  have harc : solar_arc_shift 54.3 60.1 = 5.8 := by norm_num [solar_arc_shift]
  refine ⟨h.1, harc, ?_⟩
  rw [h.2.2]
  simp only [List.map]
  rw [harc]
  norm_num [pymod]

/-- C7: secondary progression takes the whole-day calendar-date
difference (ignoring both times of day), shifts the birth instant by
that many days (keeping the birth time of day), and returns the
transiting positions of the ten bodies there; a target before the
birth gives a negative offset and is accepted. -/
theorem secondary_progression_spec (eph : Instant → String → ℚ × ℚ)
    (birth_date target_date : Instant) :
    calculate_secondary_progressions eph birth_date target_date
        = calculate_transits eph (add_days birth_date (date_diff_days birth_date target_date)) ∧
    add_days birth_date (date_diff_days birth_date target_date)
        = ⟨target_date.day, birth_date.tod⟩ ∧
    (∀ t2 : Instant, t2.day = target_date.day →
        calculate_secondary_progressions eph birth_date t2
          = calculate_secondary_progressions eph birth_date target_date) ∧
    (target_date.day < birth_date.day → date_diff_days birth_date target_date < 0) := by
  have hadd : add_days birth_date (date_diff_days birth_date target_date)
      = ⟨target_date.day, birth_date.tod⟩ := by
    simp only [add_days, date_diff_days]
    congr 1
    omega
  refine ⟨rfl, hadd, ?_, ?_⟩
  · intro t2 h2
    simp only [calculate_secondary_progressions, date_diff_days, add_days, h2]
  · intro hlt
    simp only [date_diff_days]
    omega

/-- Closed instance of `secondary_progression_spec`: a target three
days before birth is accepted with offset −7, and the progressed
instant keeps the birth time of day. -/
theorem secondary_progression_witness :
    calculate_secondary_progressions (fun t _ => (t.tod, 0)) ⟨10, 1/2⟩ ⟨3, 1/4⟩
        = calculate_transits (fun t _ => (t.tod, 0)) (add_days ⟨10, 1/2⟩ (date_diff_days ⟨10, 1/2⟩ ⟨3, 1/4⟩)) ∧
    add_days ⟨10, 1/2⟩ (date_diff_days ⟨10, 1/2⟩ ⟨3, 1/4⟩) = ⟨3, 1/2⟩ ∧
    date_diff_days ⟨10, 1/2⟩ ⟨3, 1/4⟩ < 0 := by
  have h := secondary_progression_spec (fun t _ => (t.tod, 0)) ⟨10, 1/2⟩ ⟨3, 1/4⟩
  exact ⟨h.1, h.2.1, h.2.2.2 (by norm_num)⟩

/-- Unfolding of one step of the return-refinement loop. -/
lemma findReturnLoop_succ (eph : ℚ → ℚ × ℚ) (natal_lon : ℚ) (n : ℕ) (u : ℚ) :
    findReturnLoop eph natal_lon (n + 1) u
      = if qabs (eph u).2 > RETURN_EPS then
          findReturnLoop eph natal_lon n (u + normDiff (natal_lon - (eph u).1) / (eph u).2)
        else u := rfl

/-- Unfolding of one step of the step counter. -/
lemma findReturnSteps_succ (eph : ℚ → ℚ × ℚ) (natal_lon : ℚ) (n : ℕ) (u : ℚ) :
    findReturnSteps eph natal_lon (n + 1) u
      = if qabs (eph u).2 > RETURN_EPS then
          findReturnSteps eph natal_lon n (u + normDiff (natal_lon - (eph u).1) / (eph u).2) + 1
        else 0 := rfl

/-- The loop with fuel `n` takes at most `n` advance steps. -/
lemma findReturnSteps_le (eph : ℚ → ℚ × ℚ) (natal_lon : ℚ) :
    ∀ (n : ℕ) (u : ℚ), findReturnSteps eph natal_lon n u ≤ n := by
  intro n
  induction n with
  | zero => intro u; simp [findReturnSteps]
  | succ k ih =>
      intro u
      rw [findReturnSteps_succ]
      split_ifs
      · exact Nat.succ_le_succ (ih _)
      · exact Nat.zero_le _

/-- C8 (amended): the return search performs at most 5 refinement
iterations, each advancing the estimate by the angular difference
normalized into `[-180, 180]` (a raw difference of exactly −180 is
kept as −180, not wrapped to +180) divided by the speed, stops early
with the current estimate when `|speed|` is below the `1e-9`
threshold, and always returns an instant. -/
theorem return_search_iteration_spec (eph : ℚ → ℚ × ℚ) (natal_lon t_jd : ℚ) :
    findReturnSteps eph natal_lon 5 t_jd ≤ 5 ∧
    (∀ d : ℚ, -360 < d → d < 360 → -180 ≤ normDiff d ∧ normDiff d ≤ 180) ∧
    (∀ (n : ℕ) (u : ℚ), qabs (eph u).2 < RETURN_EPS →
        findReturnLoop eph natal_lon (n + 1) u = u) ∧
    (∀ (n : ℕ) (u : ℚ), RETURN_EPS < qabs (eph u).2 →
        findReturnLoop eph natal_lon (n + 1) u
          = findReturnLoop eph natal_lon n
              (u + normDiff (natal_lon - (eph u).1) / (eph u).2)) := by
  refine ⟨findReturnSteps_le eph natal_lon 5 t_jd, ?_, ?_, ?_⟩
  · intro d h1 h2
    simp only [normDiff]
    split_ifs <;> constructor <;> linarith
  · intro n u h
    rw [findReturnLoop_succ, if_neg]
    exact not_lt.mpr (le_of_lt h)
  · intro n u h
    rw [findReturnLoop_succ, if_pos h]

/-- Closed instance of `return_search_iteration_spec`: a stationary
ephemeris (speed 0) stops at once and the step count is within 5. -/
theorem return_search_iteration_witness :
    findReturnSteps (fun _ => ((0 : ℚ), (0 : ℚ))) 0 5 7 ≤ 5 ∧
    normDiff 200 ≤ 180 ∧
    findReturnLoop (fun _ => ((0 : ℚ), (0 : ℚ))) 0 (4 + 1) 7 = 7 := by
  have h := return_search_iteration_spec (fun _ => ((0 : ℚ), (0 : ℚ))) 0 7
  exact ⟨h.1, (h.2.1 200 (by norm_num) (by norm_num)).2,
    h.2.2.1 4 7 (by norm_num [qabs, RETURN_EPS])⟩

/-- C8 counterexample: the code's angular normalization maps a raw
difference of exactly −180 (natal 0°, current longitude 180°) to −180,
which is outside the claimed interval `(-180, 180]`, and the search
therefore advances to `t - 180/speed` instead of the claimed
`t + 180/speed`. -/
theorem return_search_norm_boundary_cex :
    normDiff (0 - 180) = -180 ∧ ¬ (-180 < normDiff (0 - 180)) ∧
    find_return_jd (fun t => if t = 0 then (180, 1) else (0, 1)) 0 0 = -180 := by
  have hn : normDiff (0 - 180) = -180 := by norm_num [normDiff]
  have hstep : ∀ n : ℕ,
      findReturnLoop (fun t => if t = (0:ℚ) then ((180:ℚ), (1:ℚ)) else (0, 1)) 0 (n + 1) (-180)
        = findReturnLoop (fun t => if t = (0:ℚ) then ((180:ℚ), (1:ℚ)) else (0, 1)) 0 n (-180) := by
    intro n
    rw [findReturnLoop_succ]
    norm_num [qabs, RETURN_EPS, normDiff]
  have e1 : find_return_jd (fun t => if t = (0:ℚ) then ((180:ℚ), (1:ℚ)) else (0, 1)) 0 0
      = findReturnLoop (fun t => if t = (0:ℚ) then ((180:ℚ), (1:ℚ)) else (0, 1)) 0 4 (-180) := by
    unfold find_return_jd
    rw [show (5 : ℕ) = 4 + 1 from rfl, findReturnLoop_succ]
    norm_num [qabs, RETURN_EPS, normDiff]
  refine ⟨hn, by rw [hn]; norm_num, ?_⟩
  rw [e1, show (4 : ℕ) = 3 + 1 from rfl, hstep, show (3 : ℕ) = 2 + 1 from rfl, hstep,
    show (2 : ℕ) = 1 + 1 from rfl, hstep, show (1 : ℕ) = 0 + 1 from rfl, hstep]
  rfl

/-- Every aspect emitted by the single-chart scan has one of the five
defined kinds. -/
lemma calculate_aspects_kinds :
    ∀ (planets : List (String × ℚ × ℚ)) (orb : ℚ) (asp : Aspect),
      asp ∈ calculate_aspects planets orb →
      asp.aspect ∈ ["Conjunction", "Opposition", "Trine", "Square", "Sextile"] := by
  intro planets
  induction planets with
  | nil => intro orb asp h; simp [calculate_aspects] at h
  | cons p rest ih =>
      intro orb asp h
      simp only [calculate_aspects, List.mem_append, List.mem_flatMap] at h
      rcases h with ⟨q, _, hasp⟩ | h
      · simp only [pairAspects, List.mem_filterMap] at hasp
        obtain ⟨d, hd, hsome⟩ := hasp
        split_ifs at hsome
        rw [Option.some_inj] at hsome
        subst hsome
        fin_cases hd <;> simp
      · exact ih orb asp h

/-- C4 counterexample: the single-chart scan knows only five aspect
kinds.  A pair separated by exactly 30° yields no aspect at orb 0, no
"Semi-Sextile" even at a wide orb, and a pair at exactly 150° also
yields nothing at orb 0. -/
theorem semi_sextile_not_emitted :
    calculate_aspects [("A", 0, 0), ("B", 30, 0)] 0 = [] ∧
    (calculate_aspects [("A", 0, 0), ("B", 30, 0)] 35).all
        (fun a => !(a.aspect == "Semi-Sextile")) = true ∧
    calculate_aspects [("A", 0, 0), ("B", 150, 0)] 0 = [] := by
  have hsp : sortedPair "A" "B" = ("A", "B") := by decide
  have h35 : calculate_aspects [("A", 0, 0), ("B", 30, 0)] 35
      = [⟨"A", "Conjunction", "B", "A Conjunction B", 30⟩,
         ⟨"A", "Sextile", "B", "A Sextile B", 30⟩] := by
    norm_num [calculate_aspects, pairAspects, aspect_definitions, reduceAngle, qabs,
      List.filterMap_cons, hsp]
    refine ⟨by decide, by decide⟩
  refine ⟨?_, ?_, ?_⟩
  · norm_num [calculate_aspects, pairAspects, aspect_definitions, reduceAngle, qabs,
      List.filterMap_cons]
  · rw [h35]
    decide
  · norm_num [calculate_aspects, pairAspects, aspect_definitions, reduceAngle, qabs,
      List.filterMap_cons]

/-- C4 (amended): the single-chart aspect scan tests each pair only
against the reduced kind set {Conjunction 0°, Opposition 180°,
Trine 120°, Square 90°, Sextile 60°}; a pair separated by exactly 30°
(or 150°) with orb 0 produces no aspect at all. -/
theorem aspect_kinds_reduced_set :
    (∀ (planets : List (String × ℚ × ℚ)) (orb : ℚ) (asp : Aspect),
        asp ∈ calculate_aspects planets orb →
        asp.aspect ∈ ["Conjunction", "Opposition", "Trine", "Square", "Sextile"]) ∧
    calculate_aspects [("A", 0, 0), ("B", 30, 0)] 0 = [] ∧
    calculate_aspects [("A", 0, 0), ("B", 150, 0)] 0 = [] := by
  refine ⟨calculate_aspects_kinds, ?_, ?_⟩ <;>
    norm_num [calculate_aspects, pairAspects, aspect_definitions, reduceAngle, qabs,
      List.filterMap_cons]

/-- Closed instance of `aspect_kinds_reduced_set`: the conjunction
emitted for a pair 2° apart at orb 5 has its kind in the reduced set. -/
theorem aspect_kinds_reduced_set_witness :
    (⟨"A", "Conjunction", "B", "A Conjunction B", 2⟩ : Aspect).aspect
      ∈ ["Conjunction", "Opposition", "Trine", "Square", "Sextile"] := by
  refine aspect_kinds_reduced_set.1 [("A", 0, 0), ("B", 2, 0)] 5 _ ?_
  have hsp : sortedPair "A" "B" = ("A", "B") := by decide
  have he : calculate_aspects [("A", 0, 0), ("B", 2, 0)] 5
      = [⟨"A", "Conjunction", "B", "A Conjunction B", 2⟩] := by
    norm_num [calculate_aspects, pairAspects, aspect_definitions, reduceAngle, qabs,
      List.filterMap_cons, hsp]
    decide
  rw [he]
  simp

/-- `qabs` is the absolute value. -/
lemma qabs_eq_abs (x : ℚ) : qabs x = |x| := by
  unfold qabs
  split_ifs with h
  · rw [abs_of_neg h]
  · rw [abs_of_nonneg (not_lt.mp h)]

/-- The code's angle reduction computes the claimed
`min(|x|, 360 - |x|)` formula. -/
lemma reduceAngle_eq_min (x : ℚ) : reduceAngle x = min |x| (360 - |x|) := by
  simp only [reduceAngle, qabs_eq_abs]
  split_ifs with h
  · rw [min_eq_right (by linarith)]
  · rw [min_eq_left (by linarith)]

/-- `strLtB` decides Mathlib's lexicographic order on character lists. -/
lemma strLtB_iff : ∀ l₁ l₂ : List Char, strLtB l₁ l₂ = true ↔ List.Lex (· < ·) l₁ l₂ := by
  intro l₁
  induction l₁ with
  | nil =>
      intro l₂
      cases l₂ with
      | nil =>
          constructor
          · intro h
            simp [strLtB] at h
          · intro h
            cases h
      | cons b bs =>
          constructor
          · intro _
            exact List.Lex.nil
          · intro _
            rfl
  | cons a as ih =>
      intro l₂
      cases l₂ with
      | nil =>
          constructor
          · intro h
            simp [strLtB] at h
          · intro h
            cases h
      | cons b bs =>
          simp only [strLtB]
          split_ifs with h1 h2
          · simp only [true_iff]
            exact List.Lex.rel h1
          · simp only [Bool.false_eq_true, false_iff]
            intro h
            cases h with
            | cons h' => exact absurd h2 h1
            | rel h' => exact absurd h' h1
          · have hab : a = b := Char.eq_of_val_eq (UInt32.le_antisymm
              (UInt32.not_lt.mp h2) (UInt32.not_lt.mp h1))
            subst hab
            rw [ih bs]
            constructor
            · exact fun h => List.Lex.cons h
            · intro h
              cases h with
              | cons h' => exact h'
              | rel h' => exact absurd h' h1

/-- `pyStrLt` decides the `<` of Mathlib's `LinearOrder String`. -/
lemma pyStrLt_iff_lt (a b : String) : pyStrLt a b = true ↔ a < b := by
  rw [String.lt_iff_toList_lt]
  show strLtB a.data b.data = true ↔ a.toList < b.toList
  rw [strLtB_iff]
  exact Iff.rfl

/-- Python's two-element sort returns the min and the max. -/
lemma sortedPair_eq_min_max (a b : String) : sortedPair a b = (min a b, max a b) := by
  unfold sortedPair
  by_cases h : pyStrLt b a = true
  · have hba : b < a := (pyStrLt_iff_lt b a).mp h
    rw [if_pos h, min_eq_right hba.le, max_eq_left hba.le]
  · have hab : a ≤ b := not_lt.mp (fun hh => h ((pyStrLt_iff_lt b a).mpr hh))
    rw [if_neg (by simpa using h), min_eq_left hab, max_eq_right hab]

/-- Membership characterization of the per-pair aspect test. -/
lemma mem_pairAspects (p q : String) (x y o : ℚ) (asp : Aspect) :
    asp ∈ pairAspects p q x y o ↔
      ∃ d ∈ aspect_definitions, qabs (reduceAngle (x - y) - d.2) ≤ o ∧
        asp = ⟨(sortedPair p q).1, d.1, (sortedPair p q).2,
               (sortedPair p q).1 ++ " " ++ d.1 ++ " " ++ (sortedPair p q).2,
               qabs (reduceAngle (x - y) - d.2)⟩ := by
  simp only [pairAspects, List.mem_filterMap]
  constructor
  · rintro ⟨d, hd, hsome⟩
    split_ifs at hsome with hcond
    rw [Option.some_inj] at hsome
    exact ⟨d, hd, hcond, hsome.symm⟩
  · rintro ⟨d, hd, hcond, rfl⟩
    refine ⟨d, hd, ?_⟩
    rw [if_pos hcond]

/-- The five aspect definitions have distinct names. -/
lemma aspect_definitions_name_unique (n : String) (a₁ a₂ : ℚ)
    (h₁ : (n, a₁) ∈ aspect_definitions) (h₂ : (n, a₂) ∈ aspect_definitions) : a₁ = a₂ := by
  simp only [aspect_definitions, List.mem_cons, List.not_mem_nil, or_false,
    Prod.mk.injEq] at h₁ h₂
  rcases h₁ with ⟨rfl, rfl⟩ | ⟨rfl, rfl⟩ | ⟨rfl, rfl⟩ | ⟨rfl, rfl⟩ | ⟨rfl, rfl⟩ <;>
    rcases h₂ with ⟨h, rfl⟩ | ⟨h, rfl⟩ | ⟨h, rfl⟩ | ⟨h, rfl⟩ | ⟨h, rfl⟩ <;> simp_all

/-- C5: for two distinct bodies at longitudes `x`, `y` and any orb
`o ≥ 0`, the single-chart scan contains an aspect of kind `K` (for
each of the five defined kinds) iff `min(|x−y|, 360−|x−y|)` is within
`o` degrees of `K`'s defining angle; every emitted aspect carries the
lexicographically sorted body pair in its `p1`/`p2`/`name` fields.
Kinds are tested independently, so several may be emitted for one
pair without deduplication. -/
theorem aspects_within_iff (a b : String) (x y sa sb o : ℚ) (K : String) (ang : ℚ)
    (hab : a ≠ b) (ho : 0 ≤ o) (hK : (K, ang) ∈ aspect_definitions) :
    ((∃ asp ∈ calculate_aspects [(a, x, sa), (b, y, sb)] o, asp.aspect = K) ↔
        |min |x - y| (360 - |x - y|) - ang| ≤ o) ∧
    ∀ asp ∈ calculate_aspects [(a, x, sa), (b, y, sb)] o,
      asp.p1 = min a b ∧ asp.p2 = max a b ∧
      asp.name = min a b ++ " " ++ asp.aspect ++ " " ++ max a b := by
  have hcalc : calculate_aspects [(a, x, sa), (b, y, sb)] o = pairAspects a b x y o := by
    simp [calculate_aspects]
  have hq : ∀ z : ℚ, qabs (reduceAngle (x - y) - z) = |min |x - y| (360 - |x - y|) - z| := by
    intro z
    rw [qabs_eq_abs, reduceAngle_eq_min]
  constructor
  · rw [hcalc]
    constructor
    · rintro ⟨asp, hmem, hX⟩
      rw [mem_pairAspects] at hmem
      obtain ⟨d, hd, hcond, rfl⟩ := hmem
      simp only at hX
      have hd' : (K, d.2) ∈ aspect_definitions := by
        rw [← hX, Prod.mk.eta]
        exact hd
      have hang : d.2 = ang := aspect_definitions_name_unique K d.2 ang hd' hK
      rw [hq d.2, hang] at hcond
      exact hcond
    · intro hle
      refine ⟨_, (mem_pairAspects a b x y o _).mpr ⟨(K, ang), hK, ?_, rfl⟩, rfl⟩
      rw [hq ang]
      exact hle
  · intro asp hmem
    rw [hcalc, mem_pairAspects] at hmem
    obtain ⟨d, hd, hcond, rfl⟩ := hmem
    rw [sortedPair_eq_min_max]
    exact ⟨rfl, rfl, rfl⟩

/-- Closed instance of `aspects_within_iff`: bodies at 10° and 100°
form a square within a 5° orb, and the scan emits it. -/
theorem aspects_within_iff_witness :
    ∃ asp ∈ calculate_aspects [("Sun", 10, 0), ("Mars", 100, 0)] 5, asp.aspect = "Square" :=
  (aspects_within_iff "Sun" "Mars" 10 100 0 0 5 "Square" 90
    (by simp) (by norm_num) (by simp [aspect_definitions])).1.mpr (by norm_num)

/-- C3: the daily tier split of `_calculate_daily_aspects` drops every
progressed Moon aspect whose partner sorts lexicographically before
"Moon".  Progressed Moon 100° and Mercury 100.5° form a conjunction
within the 1° scan orb, emitted as `p1 = "Mercury"`, `p2 = "Moon"`;
the lunar filter (`p1 == 'Moon'`) rejects it and the no-Moon filter
also rejects it, so it lands in neither tier. -/
theorem moon_tier_assignment_bug :
    calculate_aspects [("Moon", 100, 12), ("Mercury", 100.5, 1)] 1
        = [⟨"Mercury", "Conjunction", "Moon", "Mercury Conjunction Moon", 0.5⟩] ∧
    lunar_prog_aspects [⟨"Mercury", "Conjunction", "Moon", "Mercury Conjunction Moon", 0.5⟩] = [] ∧
    other_prog_aspects [⟨"Mercury", "Conjunction", "Moon", "Mercury Conjunction Moon", 0.5⟩] = [] := by
  have hsp : sortedPair "Moon" "Mercury" = ("Mercury", "Moon") := by decide
  refine ⟨?_, by decide, by decide⟩
  norm_num [calculate_aspects, pairAspects, aspect_definitions, reduceAngle, qabs,
    List.filterMap_cons, hsp]
  decide



/-- A one-element day snapshot builds a one-element name dict. -/
lemma buildTodays_single (a : DayAspect) : buildTodays [a] = [a] := by
  simp [buildTodays]

/-- A day with an empty snapshot leaves an empty tracking map untouched
and emits nothing. -/
lemma aux_step_empty (tier : String) (snap : ℤ → List DayAspect) (today : ℤ) (n : ℕ)
    (h : buildTodays (snap today) = []) :
    processTierAux tier snap today (n + 1) [] = processTierAux tier snap (today + 1) n [] := by
  simp [processTierAux, h, stepPresent]

/-- A day whose snapshot is exactly the tracked pair appends today's
reading to its record and emits nothing. -/
lemma aux_step_single_present (tier : String) (snap : ℤ → List DayAspect) (nm : String)
    (today : ℤ) (n : ℕ) (a : DayAspect) (rec : ActiveRec)
    (h : buildTodays (snap today) = [a]) (hname : a.name = nm) :
    processTierAux tier snap today (n + 1) [(nm, rec)]
      = processTierAux tier snap (today + 1) n [(nm, addReading tier today a rec)] := by
  subst hname
  simp [processTierAux, h, stepPresent]

/-- A day whose snapshot is one new pair opens a record with
`start = today` and one reading, and emits nothing. -/
lemma aux_step_open (tier : String) (snap : ℤ → List DayAspect) (nm : String)
    (today : ℤ) (n : ℕ) (a : DayAspect)
    (h : buildTodays (snap today) = [a]) (hname : a.name = nm) :
    processTierAux tier snap today (n + 1) []
      = processTierAux tier snap (today + 1) n
          [(nm, addReading tier today a ⟨today, [], a⟩)] := by
  subst hname
  simp [processTierAux, h, stepPresent]

/-- A day with an empty snapshot closes the single tracked pair,
emitting its finished event with `end = today`. -/
lemma aux_step_close (tier : String) (snap : ℤ → List DayAspect) (today : ℤ) (n : ℕ)
    (nm : String) (rec : ActiveRec) (h : buildTodays (snap today) = []) :
    processTierAux tier snap today (n + 1) [(nm, rec)]
      = (mkFinalEvent tier today nm rec).toList ++ processTierAux tier snap (today + 1) n [] := by
  simp only [processTierAux, h, stepPresent, List.foldl_nil, List.filter_cons, List.filter_nil,
    List.any_nil, Bool.not_false, Bool.false_eq_true, if_neg, ite_true, ite_false]
  cases hmf : mkFinalEvent tier today nm rec <;>
    simp [List.filterMap_cons, hmf]

/-- Skipping a run of days with empty snapshots and an empty map. -/
lemma aux_skip (tier : String) (snap : ℤ → List DayAspect) :
    ∀ (n m : ℕ) (today : ℤ),
      (∀ k : ℕ, k < n → buildTodays (snap (today + k)) = []) →
      processTierAux tier snap today (n + m) [] = processTierAux tier snap (today + n) m [] := by
  intro n
  induction n with
  | zero =>
      intro m today _
      norm_num
  | succ k ih =>
      intro m today h
      have h0 : buildTodays (snap today) = [] := by simpa using h 0 (Nat.succ_pos k)
      rw [show k + 1 + m = (k + m) + 1 from by omega, aux_step_empty tier snap today _ h0,
        ih m (today + 1) (fun j hj => by
          have := h (j + 1) (by omega)
          rw [show today + 1 + (j : ℤ) = today + ((j : ℕ) + 1 : ℕ) from by push_cast; ring]
          exact this)]
      congr 1
      push_cast
      ring

/-- A tail of days with empty snapshots and an empty map emits nothing. -/
lemma aux_tail (tier : String) (snap : ℤ → List DayAspect) (n : ℕ) (today : ℤ)
    (h : ∀ k : ℕ, k < n → buildTodays (snap (today + k)) = []) :
    processTierAux tier snap today n [] = [] := by
  have := aux_skip tier snap n 0 today h
  rw [Nat.add_zero] at this
  rw [this]
  rfl

/-- While every remaining day's snapshot is exactly the tracked pair,
the sweep only accumulates readings and emits nothing; the record
still tracked when the fuel runs out is discarded. -/
lemma aux_always_present (tier : String) (snap : ℤ → List DayAspect) (nm : String) :
    ∀ (n : ℕ) (today : ℤ) (rec : ActiveRec),
      (∀ k : ℕ, k < n → ∃ a : DayAspect, a.name = nm ∧ buildTodays (snap (today + k)) = [a]) →
      processTierAux tier snap today n [(nm, rec)] = [] := by
  intro n
  induction n with
  | zero => intros; rfl
  | succ k ih =>
      intro today rec h
      obtain ⟨a, hname, hbt⟩ := h 0 (Nat.succ_pos k)
      rw [show today + ((0 : ℕ) : ℤ) = today from by push_cast; ring] at hbt
      rw [aux_step_single_present tier snap nm today k a rec hbt hname]
      exact ih (today + 1) _ (fun j hj => by
        obtain ⟨b, hb, hbt'⟩ := h (j + 1) (by omega)
        exact ⟨b, hb, by
          rw [show today + 1 + (j : ℤ) = today + ((j : ℕ) + 1 : ℕ) from by push_cast; ring]
          exact hbt'⟩)

/-- C10: an aspect pair whose orb stays within tolerance from some day
`s` through the final padded day of the window (never an absent day
before the day loop ends) is never emitted as an event, in every tier
and for every window: the sweep closes a pair only on its first absent
day, and records still tracked when the loop finishes are discarded. -/
theorem open_pair_at_window_end_not_emitted (tier nm asp p1n p2n : String)
    (orbv posv : ℤ → ℚ) (s start_date : ℤ) (num_days : ℕ) :
    processTier tier
      (fun d => if s ≤ d then [⟨nm, orbv d, asp, p1n, p2n, posv d⟩] else [])
      start_date num_days = [] := by
  have hbt : ∀ d : ℤ, s ≤ d →
      buildTodays ((fun d => if s ≤ d then
          [(⟨nm, orbv d, asp, p1n, p2n, posv d⟩ : DayAspect)] else []) d)
        = [⟨nm, orbv d, asp, p1n, p2n, posv d⟩] := by
    intro d hd
    simp only [if_pos hd]
    exact buildTodays_single _
  have hempty : ∀ d : ℤ, ¬ s ≤ d →
      buildTodays ((fun d => if s ≤ d then
          [(⟨nm, orbv d, asp, p1n, p2n, posv d⟩ : DayAspect)] else []) d) = [] := by
    intro d hd
    simp only [if_neg hd]
    rfl
  have main : ∀ (n : ℕ) (today : ℤ),
      processTierAux tier
        (fun d => if s ≤ d then [⟨nm, orbv d, asp, p1n, p2n, posv d⟩] else []) today n [] = [] := by
    intro n
    induction n with
    | zero => intro today; rfl
    | succ k ih =>
        intro today
        by_cases hs : s ≤ today
        · rw [aux_step_open tier _ nm today k _ (hbt today hs) rfl]
          exact aux_always_present tier _ nm k (today + 1) _ (fun j hj =>
            ⟨⟨nm, orbv (today + 1 + j), asp, p1n, p2n, posv (today + 1 + j)⟩, rfl,
              hbt (today + 1 + j) (by omega)⟩)
        · rw [aux_step_empty tier _ today k (hempty today hs)]
          exact ih (today + 1)
  exact main (num_days + 2) (start_date - 1)

/-- The min-scan returns the seed or a list element. -/
lemma minReadingFold_mem : ∀ (l : List Reading) (m : Reading),
    minReadingFold m l = m ∨ minReadingFold m l ∈ l := by
  intro l
  induction l with
  | nil => intro m; exact Or.inl rfl
  | cons r rest ih =>
      intro m
      simp only [minReadingFold]
      split_ifs with h
      · rcases ih r with h' | h'
        · exact Or.inr (by simp [h'])
        · exact Or.inr (List.mem_cons_of_mem _ h')
      · rcases ih m with h' | h'
        · exact Or.inl h'
        · exact Or.inr (List.mem_cons_of_mem _ h')

/-- The min-scan result's orb is a lower bound for the seed and every
list element. -/
lemma minReadingFold_le : ∀ (l : List Reading) (m : Reading),
    (minReadingFold m l).orb ≤ m.orb ∧ ∀ r ∈ l, (minReadingFold m l).orb ≤ r.orb := by
  intro l
  induction l with
  | nil => intro m; exact ⟨le_refl _, by simp⟩
  | cons r rest ih =>
      intro m
      simp only [minReadingFold]
      split_ifs with h
      · obtain ⟨h1, h2⟩ := ih r
        exact ⟨h1.trans h.le, by
          intro r' hr'
          rcases List.mem_cons.mp hr' with rfl | hr'
          · exact h1
          · exact h2 r' hr'⟩
      · obtain ⟨h1, h2⟩ := ih m
        exact ⟨h1, by
          intro r' hr'
          rcases List.mem_cons.mp hr' with rfl | hr'
          · exact h1.trans (not_lt.mp h)
          · exact h2 r' hr'⟩

/-- Core of the single-pass scenario: a pair present exactly on days
3–6 of a 10-day window is opened on day 3, accumulates four readings,
and is closed and emitted on day 7, its first absent day. -/
lemma single_pass_core (tier nm : String) (snap : ℤ → List DayAspect) (A : ℤ → DayAspect)
    (hA : ∀ d : ℤ, (A d).name = nm)
    (hp : ∀ d : ℤ, 3 ≤ d → d ≤ 6 → buildTodays (snap d) = [A d])
    (he : ∀ d : ℤ, ¬ (3 ≤ d ∧ d ≤ 6) → buildTodays (snap d) = []) :
    processTier tier snap 0 10
      = (mkFinalEvent tier 7 nm
          ⟨3, [mkReading tier 3 (A 3), mkReading tier 4 (A 4),
               mkReading tier 5 (A 5), mkReading tier 6 (A 6)], A 3⟩).toList := by
  unfold processTier
  rw [show (0 : ℤ) - 1 = -1 by norm_num, show (10 + 2 : ℕ) = 4 + 8 by norm_num]
  rw [aux_skip tier snap 4 8 (-1) (fun k hk => he _ (by omega))]
  rw [show (-1 : ℤ) + ((4 : ℕ) : ℤ) = 3 by norm_num]
  rw [show (8 : ℕ) = 7 + 1 from rfl,
    aux_step_open tier snap nm 3 7 (A 3) (hp 3 (by norm_num) (by norm_num)) (hA 3)]
  rw [show (3 : ℤ) + 1 = 4 by norm_num, show (7 : ℕ) = 6 + 1 from rfl,
    aux_step_single_present tier snap nm 4 6 (A 4) _ (hp 4 (by norm_num) (by norm_num)) (hA 4)]
  rw [show (4 : ℤ) + 1 = 5 by norm_num, show (6 : ℕ) = 5 + 1 from rfl,
    aux_step_single_present tier snap nm 5 5 (A 5) _ (hp 5 (by norm_num) (by norm_num)) (hA 5)]
  rw [show (5 : ℤ) + 1 = 6 by norm_num, show (5 : ℕ) = 4 + 1 from rfl,
    aux_step_single_present tier snap nm 6 4 (A 6) _ (hp 6 (by norm_num) (by norm_num)) (hA 6)]
  rw [show (6 : ℤ) + 1 = 7 by norm_num, show (4 : ℕ) = 3 + 1 from rfl,
    aux_step_close tier snap 7 3 nm _ (he 7 (by norm_num))]
  rw [show (7 : ℤ) + 1 = 8 by norm_num,
    aux_tail tier snap 3 8 (fun k hk => he _ (by omega))]
  simp [addReading]

/-- C1: per tier, the sweep opens a record on the first present day,
appends `(today, orb)` readings while present, and on the first absent
day emits a finished event whose end is that day and whose exact date
is the reading with (unique) minimum orb: for a pair within tolerance
exactly on days 3–6 of a 10-day window, exactly one event is emitted
with start 3, end 7, the four readings, and exact date the orb
minimizer `m`. -/
theorem aspect_event_single_pass (tier nm asp p1n p2n : String) (orbv posv : ℤ → ℚ)
    (m : ℤ) (hm3 : 3 ≤ m) (hm6 : m ≤ 6)
    (hmin : ∀ d : ℤ, 3 ≤ d → d ≤ 6 → d ≠ m → orbv m < orbv d) :
    processTier tier
      (fun d => if 3 ≤ d ∧ d ≤ 6 then [⟨nm, orbv d, asp, p1n, p2n, posv d⟩] else []) 0 10
      = [{ name := nm, start := 3, endD := 7, tier := tier, exact_date := m,
           orb_readings :=
             [mkReading tier 3 ⟨nm, orbv 3, asp, p1n, p2n, posv 3⟩,
              mkReading tier 4 ⟨nm, orbv 4, asp, p1n, p2n, posv 4⟩,
              mkReading tier 5 ⟨nm, orbv 5, asp, p1n, p2n, posv 5⟩,
              mkReading tier 6 ⟨nm, orbv 6, asp, p1n, p2n, posv 6⟩],
           aspect := asp, p1 := p1n, p2 := p2n,
           p1_pos_at_exact_pass := if tier = "transits" then some (posv m) else none,
           p1_pos_at_exact := none, exact_dates := [] }] := by
  have hcore := single_pass_core tier nm
    (fun d => if 3 ≤ d ∧ d ≤ 6 then [⟨nm, orbv d, asp, p1n, p2n, posv d⟩] else [])
    (fun d => ⟨nm, orbv d, asp, p1n, p2n, posv d⟩)
    (fun d => rfl)
    (fun d h3 h6 => by
      show buildTodays (if 3 ≤ d ∧ d ≤ 6 then [⟨nm, orbv d, asp, p1n, p2n, posv d⟩] else [])
        = [(⟨nm, orbv d, asp, p1n, p2n, posv d⟩ : DayAspect)]
      rw [if_pos ⟨h3, h6⟩]
      exact buildTodays_single _)
    (fun d hd => by
      show buildTodays (if 3 ≤ d ∧ d ≤ 6 then [⟨nm, orbv d, asp, p1n, p2n, posv d⟩] else []) = []
      rw [if_neg hd]
      rfl)
  rw [hcore]
  have hfold : minReadingFold
      (mkReading tier 3 ⟨nm, orbv 3, asp, p1n, p2n, posv 3⟩)
      [mkReading tier 4 ⟨nm, orbv 4, asp, p1n, p2n, posv 4⟩,
       mkReading tier 5 ⟨nm, orbv 5, asp, p1n, p2n, posv 5⟩,
       mkReading tier 6 ⟨nm, orbv 6, asp, p1n, p2n, posv 6⟩]
      = mkReading tier m ⟨nm, orbv m, asp, p1n, p2n, posv m⟩ := by
    interval_cases m
    · have a4 := hmin 4 (by norm_num) (by norm_num) (by norm_num)
      have a5 := hmin 5 (by norm_num) (by norm_num) (by norm_num)
      have a6 := hmin 6 (by norm_num) (by norm_num) (by norm_num)
      simp only [minReadingFold, mkReading]
      split_ifs <;> first | rfl | linarith
    · have a3 := hmin 3 (by norm_num) (by norm_num) (by norm_num)
      have a5 := hmin 5 (by norm_num) (by norm_num) (by norm_num)
      have a6 := hmin 6 (by norm_num) (by norm_num) (by norm_num)
      simp only [minReadingFold, mkReading]
      split_ifs <;> first | rfl | linarith
    · have a3 := hmin 3 (by norm_num) (by norm_num) (by norm_num)
      have a4 := hmin 4 (by norm_num) (by norm_num) (by norm_num)
      have a6 := hmin 6 (by norm_num) (by norm_num) (by norm_num)
      simp only [minReadingFold, mkReading]
      split_ifs <;> first | rfl | linarith
    · have a3 := hmin 3 (by norm_num) (by norm_num) (by norm_num)
      have a4 := hmin 4 (by norm_num) (by norm_num) (by norm_num)
      have a5 := hmin 5 (by norm_num) (by norm_num) (by norm_num)
      simp only [minReadingFold, mkReading]
      split_ifs <;> first | rfl | linarith
  simp only [mkFinalEvent, minReadingByOrb, hfold]
  by_cases htier : tier = "transits" <;>
    simp [htier, mkReading, Option.toList]

/-- Closed instance of `aspect_event_single_pass`: orbs 5, 2, 1, 2 on
days 3–6 give one event with exact date 5. -/
theorem aspect_event_single_pass_witness :
    processTier "other_prog"
      (fun d => if 3 ≤ d ∧ d ≤ 6 then
        [⟨"P", ((d : ℚ) - 5) ^ 2 + 1, "Square", "Mars", "Sun", 0⟩] else []) 0 10
      = [{ name := "P", start := 3, endD := 7, tier := "other_prog", exact_date := 5,
           orb_readings :=
             [mkReading "other_prog" 3 ⟨"P", (((3 : ℤ) : ℚ) - 5) ^ 2 + 1, "Square", "Mars", "Sun", 0⟩,
              mkReading "other_prog" 4 ⟨"P", (((4 : ℤ) : ℚ) - 5) ^ 2 + 1, "Square", "Mars", "Sun", 0⟩,
              mkReading "other_prog" 5 ⟨"P", (((5 : ℤ) : ℚ) - 5) ^ 2 + 1, "Square", "Mars", "Sun", 0⟩,
              mkReading "other_prog" 6 ⟨"P", (((6 : ℤ) : ℚ) - 5) ^ 2 + 1, "Square", "Mars", "Sun", 0⟩],
           aspect := "Square", p1 := "Mars", p2 := "Sun",
           p1_pos_at_exact_pass := none, p1_pos_at_exact := none, exact_dates := [] }] := by
  have h := aspect_event_single_pass "other_prog" "P" "Square" "Mars" "Sun"
    (fun d => ((d : ℚ) - 5) ^ 2 + 1) (fun _ => 0) 5 (by norm_num) (by norm_num)
    (fun d h3 h6 hne => by
      interval_cases d
      · norm_num
      · norm_num
      · exact absurd rfl hne
      · norm_num)
  rw [h]
  norm_num
  intro hx
  exact absurd hx (by decide)

/-- A tier whose daily snapshots are all empty produces no events. -/
lemma empty_tier (tier : String) (start_date : ℤ) (num_days : ℕ) :
    processTier tier (fun _ => []) start_date num_days = [] := by
  unfold processTier
  exact aux_tail tier _ _ _ (fun k _ => rfl)

/-- Core of the two-pass scenario in a 90-day window: a pair present
exactly on days 1–3 and 40–42 is emitted as two raw passes, closed on
days 4 and 43. -/
lemma two_pass_core (tier nm : String) (snap : ℤ → List DayAspect) (A : ℤ → DayAspect)
    (hA : ∀ d : ℤ, (A d).name = nm)
    (hp : ∀ d : ℤ, (1 ≤ d ∧ d ≤ 3) ∨ (40 ≤ d ∧ d ≤ 42) → buildTodays (snap d) = [A d])
    (he : ∀ d : ℤ, ¬ ((1 ≤ d ∧ d ≤ 3) ∨ (40 ≤ d ∧ d ≤ 42)) → buildTodays (snap d) = []) :
    processTier tier snap 0 90
      = (mkFinalEvent tier 4 nm
          ⟨1, [mkReading tier 1 (A 1), mkReading tier 2 (A 2), mkReading tier 3 (A 3)],
           A 1⟩).toList
        ++ (mkFinalEvent tier 43 nm
            ⟨40, [mkReading tier 40 (A 40), mkReading tier 41 (A 41), mkReading tier 42 (A 42)],
             A 40⟩).toList := by
  unfold processTier
  rw [show (0 : ℤ) - 1 = -1 by norm_num, show (90 + 2 : ℕ) = 2 + 90 by norm_num]
  rw [aux_skip tier snap 2 90 (-1) (fun k hk => he _ (by omega))]
  rw [show (-1 : ℤ) + ((2 : ℕ) : ℤ) = 1 by norm_num]
  rw [show (90 : ℕ) = 89 + 1 from rfl,
    aux_step_open tier snap nm 1 89 (A 1) (hp 1 (by norm_num)) (hA 1)]
  rw [show (1 : ℤ) + 1 = 2 by norm_num, show (89 : ℕ) = 88 + 1 from rfl,
    aux_step_single_present tier snap nm 2 88 (A 2) _ (hp 2 (by norm_num)) (hA 2)]
  rw [show (2 : ℤ) + 1 = 3 by norm_num, show (88 : ℕ) = 87 + 1 from rfl,
    aux_step_single_present tier snap nm 3 87 (A 3) _ (hp 3 (by norm_num)) (hA 3)]
  rw [show (3 : ℤ) + 1 = 4 by norm_num, show (87 : ℕ) = 86 + 1 from rfl,
    aux_step_close tier snap 4 86 nm _ (he 4 (by norm_num))]
  rw [show (4 : ℤ) + 1 = 5 by norm_num, show (86 : ℕ) = 35 + 51 by norm_num,
    aux_skip tier snap 35 51 5 (fun k hk => he _ (by omega))]
  rw [show (5 : ℤ) + ((35 : ℕ) : ℤ) = 40 by norm_num]
  rw [show (51 : ℕ) = 50 + 1 from rfl,
    aux_step_open tier snap nm 40 50 (A 40) (hp 40 (by norm_num)) (hA 40)]
  rw [show (40 : ℤ) + 1 = 41 by norm_num, show (50 : ℕ) = 49 + 1 from rfl,
    aux_step_single_present tier snap nm 41 49 (A 41) _ (hp 41 (by norm_num)) (hA 41)]
  rw [show (41 : ℤ) + 1 = 42 by norm_num, show (49 : ℕ) = 48 + 1 from rfl,
    aux_step_single_present tier snap nm 42 48 (A 42) _ (hp 42 (by norm_num)) (hA 42)]
  rw [show (42 : ℤ) + 1 = 43 by norm_num, show (48 : ℕ) = 47 + 1 from rfl,
    aux_step_close tier snap 43 47 nm _ (he 43 (by norm_num))]
  rw [show (43 : ℤ) + 1 = 44 by norm_num,
    aux_tail tier snap 47 44 (fun k hk => he _ (by omega))]
  simp [addReading]

/-- Expansion of `mkFinalEvent` on a non-empty reading list. -/
lemma mkFinalEvent_cons (tier : String) (today : ℤ) (nm : String) (s : ℤ)
    (a : DayAspect) (r : Reading) (rest : List Reading) :
    mkFinalEvent tier today nm ⟨s, r :: rest, a⟩
      = some { name := nm, start := s, endD := today, tier := tier,
               exact_date := (minReadingFold r rest).date, orb_readings := r :: rest,
               aspect := a.aspect, p1 := a.p1, p2 := a.p2,
               p1_pos_at_exact_pass :=
                 if tier = "transits" then (minReadingFold r rest).pos else none,
               p1_pos_at_exact := none, exact_dates := [] } := rfl

/-- The date of a constructed reading is the day it was taken. -/
lemma mkReading_date (tier : String) (today : ℤ) (a : DayAspect) :
    (mkReading tier today a).date = today := rfl

/-- The orb of a constructed reading is the snapshot's orb. -/
lemma mkReading_orb (tier : String) (today : ℤ) (a : DayAspect) :
    (mkReading tier today a).orb = a.orb := rfl

/-- C2: in a 3-month (90-day) window where one named pair is within
tolerance exactly on days 1–3 and 40–42 in both the other-progression
tier and the transit tier: the transit tier's two finished passes are
merged into exactly one event with start 1 (min of starts), end 43
(max of ends), the two pass exact dates retained as a chronologically
sorted two-element list, and exact date the date of a reading of
globally minimal orb across all six retained readings — while the
progression tier keeps its two passes as two separate events. -/
theorem transit_multi_pass_merge (nm asp p1n p2n : String) (orbv posv : ℤ → ℚ)
    (snap : String → ℤ → List DayAspect)
    (hlun : ∀ d : ℤ, snap "lunar_prog" d = [])
    (hpat : ∀ tier ∈ (["other_prog", "transits"] : List String), ∀ d : ℤ,
        snap tier d = if (1 ≤ d ∧ d ≤ 3) ∨ (40 ≤ d ∧ d ≤ 42) then
          [⟨nm, orbv d, asp, p1n, p2n, posv d⟩] else []) :
    ∀ out : List AspectEvent, out = process_aspect_events snap 0 3 →
      out.length = 3 ∧
      (out.filter (fun e => e.tier == "other_prog")).map (fun e => (e.name, e.start, e.endD))
        = [(nm, 1, 4), (nm, 40, 43)] ∧
      ∃ e : AspectEvent, out.filter (fun e => e.tier == "transits") = [e] ∧
        e.name = nm ∧ e.start = 1 ∧ e.endD = 43 ∧
        (∃ d1 d2 : ℤ, e.exact_dates = [d1, d2] ∧ 1 ≤ d1 ∧ d1 ≤ 3 ∧ 40 ≤ d2 ∧ d2 ≤ 42) ∧
        e.orb_readings.length = 6 ∧
        ∃ r ∈ e.orb_readings, r.date = e.exact_date ∧
          ∀ r2 ∈ e.orb_readings, r.orb ≤ r2.orb := by
  intro out hout
  subst hout
  set A : ℤ → DayAspect := fun d => ⟨nm, orbv d, asp, p1n, p2n, posv d⟩ with hA
  have hbt_pres : ∀ tier ∈ (["other_prog", "transits"] : List String), ∀ d : ℤ,
      (1 ≤ d ∧ d ≤ 3) ∨ (40 ≤ d ∧ d ≤ 42) → buildTodays (snap tier d) = [A d] := by
    intro tier htier d hd
    rw [hpat tier htier d, if_pos hd]
    exact buildTodays_single _
  have hbt_abs : ∀ tier ∈ (["other_prog", "transits"] : List String), ∀ d : ℤ,
      ¬ ((1 ≤ d ∧ d ≤ 3) ∨ (40 ≤ d ∧ d ≤ 42)) → buildTodays (snap tier d) = [] := by
    intro tier htier d hd
    rw [hpat tier htier d, if_neg hd]
    rfl
  have hlunar : processTier "lunar_prog" (snap "lunar_prog") 0 90 = [] := by
    have hF : snap "lunar_prog" = fun _ => [] := funext hlun
    rw [hF, empty_tier]
  have hother : processTier "other_prog" (snap "other_prog") 0 90
      = [{ name := nm, start := 1, endD := 4, tier := "other_prog",
           exact_date := (minReadingFold (mkReading "other_prog" 1 (A 1))
             [mkReading "other_prog" 2 (A 2), mkReading "other_prog" 3 (A 3)]).date,
           orb_readings := [mkReading "other_prog" 1 (A 1), mkReading "other_prog" 2 (A 2),
             mkReading "other_prog" 3 (A 3)],
           aspect := asp, p1 := p1n, p2 := p2n,
           p1_pos_at_exact_pass := none, p1_pos_at_exact := none, exact_dates := [] },
         { name := nm, start := 40, endD := 43, tier := "other_prog",
           exact_date := (minReadingFold (mkReading "other_prog" 40 (A 40))
             [mkReading "other_prog" 41 (A 41), mkReading "other_prog" 42 (A 42)]).date,
           orb_readings := [mkReading "other_prog" 40 (A 40), mkReading "other_prog" 41 (A 41),
             mkReading "other_prog" 42 (A 42)],
           aspect := asp, p1 := p1n, p2 := p2n,
           p1_pos_at_exact_pass := none, p1_pos_at_exact := none, exact_dates := [] }] := by
    rw [two_pass_core "other_prog" nm (snap "other_prog") A (fun d => rfl)
      (hbt_pres "other_prog" (by simp)) (hbt_abs "other_prog" (by simp))]
    rw [mkFinalEvent_cons, mkFinalEvent_cons]
    simp [hA]
  have htransit : processTier "transits" (snap "transits") 0 90
      = [{ name := nm, start := 1, endD := 4, tier := "transits",
           exact_date := (minReadingFold (mkReading "transits" 1 (A 1))
             [mkReading "transits" 2 (A 2), mkReading "transits" 3 (A 3)]).date,
           orb_readings := [mkReading "transits" 1 (A 1), mkReading "transits" 2 (A 2),
             mkReading "transits" 3 (A 3)],
           aspect := asp, p1 := p1n, p2 := p2n,
           p1_pos_at_exact_pass := (minReadingFold (mkReading "transits" 1 (A 1))
             [mkReading "transits" 2 (A 2), mkReading "transits" 3 (A 3)]).pos,
           p1_pos_at_exact := none, exact_dates := [] },
         { name := nm, start := 40, endD := 43, tier := "transits",
           exact_date := (minReadingFold (mkReading "transits" 40 (A 40))
             [mkReading "transits" 41 (A 41), mkReading "transits" 42 (A 42)]).date,
           orb_readings := [mkReading "transits" 40 (A 40), mkReading "transits" 41 (A 41),
             mkReading "transits" 42 (A 42)],
           aspect := asp, p1 := p1n, p2 := p2n,
           p1_pos_at_exact_pass := (minReadingFold (mkReading "transits" 40 (A 40))
             [mkReading "transits" 41 (A 41), mkReading "transits" 42 (A 42)]).pos,
           p1_pos_at_exact := none, exact_dates := [] }] := by
    rw [two_pass_core "transits" nm (snap "transits") A (fun d => rfl)
      (hbt_pres "transits" (by simp)) (hbt_abs "transits" (by simp))]
    rw [mkFinalEvent_cons, mkFinalEvent_cons]
    simp [hA]
  have hg1d : 1 ≤ (minReadingFold (mkReading "transits" 1 (A 1))
        [mkReading "transits" 2 (A 2), mkReading "transits" 3 (A 3)]).date ∧
      (minReadingFold (mkReading "transits" 1 (A 1))
        [mkReading "transits" 2 (A 2), mkReading "transits" 3 (A 3)]).date ≤ 3 := by
    rcases minReadingFold_mem [mkReading "transits" 2 (A 2), mkReading "transits" 3 (A 3)]
        (mkReading "transits" 1 (A 1)) with h | h
    · rw [h, mkReading_date]
      norm_num
    · simp only [List.mem_cons, List.not_mem_nil, or_false] at h
      rcases h with h | h <;> rw [h, mkReading_date] <;> norm_num
  have hg2d : 40 ≤ (minReadingFold (mkReading "transits" 40 (A 40))
        [mkReading "transits" 41 (A 41), mkReading "transits" 42 (A 42)]).date ∧
      (minReadingFold (mkReading "transits" 40 (A 40))
        [mkReading "transits" 41 (A 41), mkReading "transits" 42 (A 42)]).date ≤ 42 := by
    rcases minReadingFold_mem [mkReading "transits" 41 (A 41), mkReading "transits" 42 (A 42)]
        (mkReading "transits" 40 (A 40)) with h | h
    · rw [h, mkReading_date]
      norm_num
    · simp only [List.mem_cons, List.not_mem_nil, or_false] at h
      rcases h with h | h <;> rw [h, mkReading_date] <;> norm_num
  have hg12 : (minReadingFold (mkReading "transits" 1 (A 1))
        [mkReading "transits" 2 (A 2), mkReading "transits" 3 (A 3)]).date
      ≤ (minReadingFold (mkReading "transits" 40 (A 40))
        [mkReading "transits" 41 (A 41), mkReading "transits" 42 (A 42)]).date := by
    obtain ⟨a1, a2⟩ := hg1d
    obtain ⟨b1, b2⟩ := hg2d
    omega
  have hsort : List.insertionSort (fun a b => a ≤ b)
      [(minReadingFold (mkReading "transits" 1 (A 1))
          [mkReading "transits" 2 (A 2), mkReading "transits" 3 (A 3)]).date,
        (minReadingFold (mkReading "transits" 40 (A 40))
          [mkReading "transits" 41 (A 41), mkReading "transits" 42 (A 42)]).date]
      = [(minReadingFold (mkReading "transits" 1 (A 1))
          [mkReading "transits" 2 (A 2), mkReading "transits" 3 (A 3)]).date,
        (minReadingFold (mkReading "transits" 40 (A 40))
          [mkReading "transits" 41 (A 41), mkReading "transits" 42 (A 42)]).date] := by
    simp only [List.insertionSort, List.orderedInsert]
    rw [if_pos hg12]
  have hb1 : (("other_prog" : String) == "transits") = false := by decide
  have hb2 : (("transits" : String) == "transits") = true := by decide
  have hb4 : (("other_prog" : String) == "other_prog") = true := by decide
  have hb5 : (("transits" : String) == "other_prog") = false := by decide
  have hmin140 : min (1 : ℤ) 40 = 1 := by norm_num
  have hmax443 : max (4 : ℤ) 43 = 43 := by norm_num
  have hout2 : process_aspect_events snap 0 3
      = [{ name := nm, start := 1, endD := 4, tier := "other_prog",
           exact_date := (minReadingFold (mkReading "other_prog" 1 (A 1))
             [mkReading "other_prog" 2 (A 2), mkReading "other_prog" 3 (A 3)]).date,
           orb_readings := [mkReading "other_prog" 1 (A 1), mkReading "other_prog" 2 (A 2),
             mkReading "other_prog" 3 (A 3)],
           aspect := asp, p1 := p1n, p2 := p2n,
           p1_pos_at_exact_pass := none, p1_pos_at_exact := none, exact_dates := [] },
         { name := nm, start := 40, endD := 43, tier := "other_prog",
           exact_date := (minReadingFold (mkReading "other_prog" 40 (A 40))
             [mkReading "other_prog" 41 (A 41), mkReading "other_prog" 42 (A 42)]).date,
           orb_readings := [mkReading "other_prog" 40 (A 40), mkReading "other_prog" 41 (A 41),
             mkReading "other_prog" 42 (A 42)],
           aspect := asp, p1 := p1n, p2 := p2n,
           p1_pos_at_exact_pass := none, p1_pos_at_exact := none, exact_dates := [] },
         { name := nm, start := 1, endD := 43, tier := "transits",
           exact_date := (minReadingFold (mkReading "transits" 1 (A 1))
             [mkReading "transits" 2 (A 2), mkReading "transits" 3 (A 3),
              mkReading "transits" 40 (A 40), mkReading "transits" 41 (A 41),
              mkReading "transits" 42 (A 42)]).date,
           orb_readings := [mkReading "transits" 1 (A 1), mkReading "transits" 2 (A 2),
             mkReading "transits" 3 (A 3), mkReading "transits" 40 (A 40),
             mkReading "transits" 41 (A 41), mkReading "transits" 42 (A 42)],
           aspect := asp, p1 := p1n, p2 := p2n,
           p1_pos_at_exact_pass := (minReadingFold (mkReading "transits" 1 (A 1))
             [mkReading "transits" 2 (A 2), mkReading "transits" 3 (A 3)]).pos,
           p1_pos_at_exact := (minReadingFold (mkReading "transits" 1 (A 1))
             [mkReading "transits" 2 (A 2), mkReading "transits" 3 (A 3),
              mkReading "transits" 40 (A 40), mkReading "transits" 41 (A 41),
              mkReading "transits" 42 (A 42)]).pos,
           exact_dates :=
             [(minReadingFold (mkReading "transits" 1 (A 1))
                [mkReading "transits" 2 (A 2), mkReading "transits" 3 (A 3)]).date,
              (minReadingFold (mkReading "transits" 40 (A 40))
                [mkReading "transits" 41 (A 41), mkReading "transits" 42 (A 42)]).date] }] := by
    simp only [process_aspect_events]
    rw [show (3 * 30 : ℕ) = 90 by norm_num]
    simp only [TIERS, List.flatMap_cons, List.flatMap_nil]
    rw [hlunar, hother, htransit]
    simp only [List.nil_append, List.append_nil, List.cons_append, List.filter_cons,
      List.filter_nil, hb1, hb2, hb4, hb5, Bool.not_false, Bool.not_true, if_true, if_false,
      Bool.false_eq_true, Bool.true_eq_false, ite_true, ite_false]
    simp only [mergeTransits, List.foldl_cons, List.foldl_nil, mergeStep, List.any_nil,
      List.any_cons, beq_self_eq_true, Bool.or_false, Bool.false_eq_true, ite_true, ite_false,
      if_true, if_false, List.map_cons, List.map_nil, List.filterMap_cons, List.filterMap_nil,
      finalizeMerged, minReadingByOrb, List.cons_append, List.nil_append,
      hmin140, hmax443, hsort]
  rw [hout2]
  refine ⟨rfl, ?_, ?_⟩
  · simp only [List.filter_cons, List.filter_nil, hb1, hb2, hb4, hb5, Bool.not_false,
      Bool.not_true, ite_true, ite_false, List.map_cons, List.map_nil]
    simp
  · refine ⟨{ name := nm, start := 1, endD := 43, tier := "transits",
              exact_date := (minReadingFold (mkReading "transits" 1 (A 1))
                [mkReading "transits" 2 (A 2), mkReading "transits" 3 (A 3),
                 mkReading "transits" 40 (A 40), mkReading "transits" 41 (A 41),
                 mkReading "transits" 42 (A 42)]).date,
              orb_readings := [mkReading "transits" 1 (A 1), mkReading "transits" 2 (A 2),
                mkReading "transits" 3 (A 3), mkReading "transits" 40 (A 40),
                mkReading "transits" 41 (A 41), mkReading "transits" 42 (A 42)],
              aspect := asp, p1 := p1n, p2 := p2n,
              p1_pos_at_exact_pass := (minReadingFold (mkReading "transits" 1 (A 1))
                [mkReading "transits" 2 (A 2), mkReading "transits" 3 (A 3)]).pos,
              p1_pos_at_exact := (minReadingFold (mkReading "transits" 1 (A 1))
                [mkReading "transits" 2 (A 2), mkReading "transits" 3 (A 3),
                 mkReading "transits" 40 (A 40), mkReading "transits" 41 (A 41),
                 mkReading "transits" 42 (A 42)]).pos,
              exact_dates :=
                [(minReadingFold (mkReading "transits" 1 (A 1))
                   [mkReading "transits" 2 (A 2), mkReading "transits" 3 (A 3)]).date,
                 (minReadingFold (mkReading "transits" 40 (A 40))
                   [mkReading "transits" 41 (A 41), mkReading "transits" 42 (A 42)]).date] },
      ?_, rfl, rfl, rfl, ⟨_, _, rfl, hg1d.1, hg1d.2, hg2d.1, hg2d.2⟩, rfl, ?_⟩
    · simp only [List.filter_cons, List.filter_nil, hb1, hb2, hb4, hb5, Bool.not_false,
        Bool.not_true, ite_true, ite_false]
      simp
    · refine ⟨minReadingFold (mkReading "transits" 1 (A 1))
        [mkReading "transits" 2 (A 2), mkReading "transits" 3 (A 3),
         mkReading "transits" 40 (A 40), mkReading "transits" 41 (A 41),
         mkReading "transits" 42 (A 42)], ?_, rfl, ?_⟩
      · rcases minReadingFold_mem [mkReading "transits" 2 (A 2), mkReading "transits" 3 (A 3),
            mkReading "transits" 40 (A 40), mkReading "transits" 41 (A 41),
            mkReading "transits" 42 (A 42)] (mkReading "transits" 1 (A 1)) with h | h
        · rw [h]
          exact List.mem_cons_self _ _
        · exact List.mem_cons_of_mem _ h
      · intro r2 hr2
        obtain ⟨hseed, hrest⟩ := minReadingFold_le
          [mkReading "transits" 2 (A 2), mkReading "transits" 3 (A 3),
           mkReading "transits" 40 (A 40), mkReading "transits" 41 (A 41),
           mkReading "transits" 42 (A 42)] (mkReading "transits" 1 (A 1))
        rcases List.mem_cons.mp hr2 with rfl | hr2
        · exact hseed
        · exact hrest r2 hr2

/-- Closed instance of `transit_multi_pass_merge`: a concrete orb
profile with two in-tolerance windows produces exactly three events
(two progression passes plus one merged transit). -/
theorem transit_multi_pass_merge_witness :
    (process_aspect_events
      (fun tier d =>
        if tier = "lunar_prog" then []
        else if (1 ≤ d ∧ d ≤ 3) ∨ (40 ≤ d ∧ d ≤ 42) then
          [⟨"T", ((d : ℚ) - 41) ^ 2 + 1, "Conjunction", "Jupiter", "Sun", 7⟩] else [])
      0 3).length = 3 := by
  refine (transit_multi_pass_merge "T" "Conjunction" "Jupiter" "Sun"
    (fun d => ((d : ℚ) - 41) ^ 2 + 1) (fun _ => 7)
    (fun tier d =>
      if tier = "lunar_prog" then []
      else if (1 ≤ d ∧ d ≤ 3) ∨ (40 ≤ d ∧ d ≤ 42) then
        [⟨"T", ((d : ℚ) - 41) ^ 2 + 1, "Conjunction", "Jupiter", "Sun", 7⟩] else [])
    ?_ ?_ _ rfl).1
  · intro d
    simp
  · intro tier htier d
    simp only [List.mem_cons, List.not_mem_nil, or_false] at htier
    rcases htier with rfl | rfl <;> simp

/-- C9 counterexample: the cusp sequence
`[300, 330, 0, 30, 60, 90, 120, 150, 180, 210, 240, 270]` satisfies the
data-model invariant (12 longitudes in `[0, 360)`, non-decreasing
modulo 360 with one wrap-around, here between indices 1 and 2), yet
looking up cusp index 1 (330°) returns house "12" instead of house
"2": the linear scan assumes the wrap-around sits between `cusp[11]`
and `cusp[0]`. -/
theorem house_of_cusp_roundtrip_cex :
    houseCuspInvariant [300, 330, 0, 30, 60, 90, 120, 150, 180, 210, 240, 270] ∧
    get_house_for_position [300, 330, 0, 30, 60, 90, 120, 150, 180, 210, 240, 270]
      ([300, 330, 0, 30, 60, 90, 120, 150, 180, 210, 240, 270].getD 1 0) = "12" ∧
    ("12" : String) ≠ toString (1 + 1) := by
  refine ⟨⟨rfl, by decide, by decide⟩, by decide, by decide⟩

/-- C9 (amended): for a cusp sequence that is strictly increasing in
stored order with all 12 cusps in `[0, 360)` — that is, the single
wrap-around falls between `cusp[11]` and `cusp[0]` — the house lookup
applied to `cusp[k]` returns house `k + 1` for every index `k`,
including the wrap-around interval that sends `cusp[11]` to house 12.
With merely non-decreasing cusps, or a wrap-around at an interior
index, the round trip fails (see the counterexample). -/
theorem house_of_cusp_roundtrip (c0 c1 c2 c3 c4 c5 c6 c7 c8 c9 c10 c11 : ℚ)
    (h01 : c0 < c1) (h12 : c1 < c2) (h23 : c2 < c3) (h34 : c3 < c4) (h45 : c4 < c5)
    (h56 : c5 < c6) (h67 : c6 < c7) (h78 : c7 < c8) (h89 : c8 < c9) (h910 : c9 < c10)
    (h1011 : c10 < c11) (hlo : 0 ≤ c0) (hhi : c11 < 360) (k : ℕ) (hk : k < 12) :
    get_house_for_position [c0, c1, c2, c3, c4, c5, c6, c7, c8, c9, c10, c11]
      ([c0, c1, c2, c3, c4, c5, c6, c7, c8, c9, c10, c11].getD k 0) = toString (k + 1) := by
  interval_cases k
  · unfold get_house_for_position
    rw [show List.range 11 = [0, 1, 2, 3, 4, 5, 6, 7, 8, 9, 10] from rfl]
    rw [List.find?_cons_of_pos _ (by
      simp only [decide_eq_true_eq, List.getD_cons_zero, List.getD_cons_succ]
      exact ⟨le_rfl, by linarith⟩)]
    rfl
  · unfold get_house_for_position
    rw [show List.range 11 = [0, 1, 2, 3, 4, 5, 6, 7, 8, 9, 10] from rfl]
    rw [List.find?_cons_of_neg _ (by
      simp only [decide_eq_true_eq, List.getD_cons_zero, List.getD_cons_succ]
      rintro ⟨-, hcon⟩
      linarith)]
    rw [List.find?_cons_of_pos _ (by
      simp only [decide_eq_true_eq, List.getD_cons_zero, List.getD_cons_succ]
      exact ⟨le_rfl, by linarith⟩)]
    rfl
  · unfold get_house_for_position
    rw [show List.range 11 = [0, 1, 2, 3, 4, 5, 6, 7, 8, 9, 10] from rfl]
    rw [List.find?_cons_of_neg _ (by
      simp only [decide_eq_true_eq, List.getD_cons_zero, List.getD_cons_succ]
      rintro ⟨-, hcon⟩
      linarith)]
    rw [List.find?_cons_of_neg _ (by
      simp only [decide_eq_true_eq, List.getD_cons_zero, List.getD_cons_succ]
      rintro ⟨-, hcon⟩
      linarith)]
    rw [List.find?_cons_of_pos _ (by
      simp only [decide_eq_true_eq, List.getD_cons_zero, List.getD_cons_succ]
      exact ⟨le_rfl, by linarith⟩)]
    rfl
  · unfold get_house_for_position
    rw [show List.range 11 = [0, 1, 2, 3, 4, 5, 6, 7, 8, 9, 10] from rfl]
    rw [List.find?_cons_of_neg _ (by
      simp only [decide_eq_true_eq, List.getD_cons_zero, List.getD_cons_succ]
      rintro ⟨-, hcon⟩
      linarith)]
    rw [List.find?_cons_of_neg _ (by
      simp only [decide_eq_true_eq, List.getD_cons_zero, List.getD_cons_succ]
      rintro ⟨-, hcon⟩
      linarith)]
    rw [List.find?_cons_of_neg _ (by
      simp only [decide_eq_true_eq, List.getD_cons_zero, List.getD_cons_succ]
      rintro ⟨-, hcon⟩
      linarith)]
    rw [List.find?_cons_of_pos _ (by
      simp only [decide_eq_true_eq, List.getD_cons_zero, List.getD_cons_succ]
      exact ⟨le_rfl, by linarith⟩)]
    rfl
  · unfold get_house_for_position
    rw [show List.range 11 = [0, 1, 2, 3, 4, 5, 6, 7, 8, 9, 10] from rfl]
    rw [List.find?_cons_of_neg _ (by
      simp only [decide_eq_true_eq, List.getD_cons_zero, List.getD_cons_succ]
      rintro ⟨-, hcon⟩
      linarith)]
    rw [List.find?_cons_of_neg _ (by
      simp only [decide_eq_true_eq, List.getD_cons_zero, List.getD_cons_succ]
      rintro ⟨-, hcon⟩
      linarith)]
    rw [List.find?_cons_of_neg _ (by
      simp only [decide_eq_true_eq, List.getD_cons_zero, List.getD_cons_succ]
      rintro ⟨-, hcon⟩
      linarith)]
    rw [List.find?_cons_of_neg _ (by
      simp only [decide_eq_true_eq, List.getD_cons_zero, List.getD_cons_succ]
      rintro ⟨-, hcon⟩
      linarith)]
    rw [List.find?_cons_of_pos _ (by
      simp only [decide_eq_true_eq, List.getD_cons_zero, List.getD_cons_succ]
      exact ⟨le_rfl, by linarith⟩)]
    rfl
  · unfold get_house_for_position
    rw [show List.range 11 = [0, 1, 2, 3, 4, 5, 6, 7, 8, 9, 10] from rfl]
    rw [List.find?_cons_of_neg _ (by
      simp only [decide_eq_true_eq, List.getD_cons_zero, List.getD_cons_succ]
      rintro ⟨-, hcon⟩
      linarith)]
    rw [List.find?_cons_of_neg _ (by
      simp only [decide_eq_true_eq, List.getD_cons_zero, List.getD_cons_succ]
      rintro ⟨-, hcon⟩
      linarith)]
    rw [List.find?_cons_of_neg _ (by
      simp only [decide_eq_true_eq, List.getD_cons_zero, List.getD_cons_succ]
      rintro ⟨-, hcon⟩
      linarith)]
    rw [List.find?_cons_of_neg _ (by
      simp only [decide_eq_true_eq, List.getD_cons_zero, List.getD_cons_succ]
      rintro ⟨-, hcon⟩
      linarith)]
    rw [List.find?_cons_of_neg _ (by
      simp only [decide_eq_true_eq, List.getD_cons_zero, List.getD_cons_succ]
      rintro ⟨-, hcon⟩
      linarith)]
    rw [List.find?_cons_of_pos _ (by
      simp only [decide_eq_true_eq, List.getD_cons_zero, List.getD_cons_succ]
      exact ⟨le_rfl, by linarith⟩)]
    rfl
  · unfold get_house_for_position
    rw [show List.range 11 = [0, 1, 2, 3, 4, 5, 6, 7, 8, 9, 10] from rfl]
    rw [List.find?_cons_of_neg _ (by
      simp only [decide_eq_true_eq, List.getD_cons_zero, List.getD_cons_succ]
      rintro ⟨-, hcon⟩
      linarith)]
    rw [List.find?_cons_of_neg _ (by
      simp only [decide_eq_true_eq, List.getD_cons_zero, List.getD_cons_succ]
      rintro ⟨-, hcon⟩
      linarith)]
    rw [List.find?_cons_of_neg _ (by
      simp only [decide_eq_true_eq, List.getD_cons_zero, List.getD_cons_succ]
      rintro ⟨-, hcon⟩
      linarith)]
    rw [List.find?_cons_of_neg _ (by
      simp only [decide_eq_true_eq, List.getD_cons_zero, List.getD_cons_succ]
      rintro ⟨-, hcon⟩
      linarith)]
    rw [List.find?_cons_of_neg _ (by
      simp only [decide_eq_true_eq, List.getD_cons_zero, List.getD_cons_succ]
      rintro ⟨-, hcon⟩
      linarith)]
    rw [List.find?_cons_of_neg _ (by
      simp only [decide_eq_true_eq, List.getD_cons_zero, List.getD_cons_succ]
      rintro ⟨-, hcon⟩
      linarith)]
    rw [List.find?_cons_of_pos _ (by
      simp only [decide_eq_true_eq, List.getD_cons_zero, List.getD_cons_succ]
      exact ⟨le_rfl, by linarith⟩)]
    rfl
  · unfold get_house_for_position
    rw [show List.range 11 = [0, 1, 2, 3, 4, 5, 6, 7, 8, 9, 10] from rfl]
    rw [List.find?_cons_of_neg _ (by
      simp only [decide_eq_true_eq, List.getD_cons_zero, List.getD_cons_succ]
      rintro ⟨-, hcon⟩
      linarith)]
    rw [List.find?_cons_of_neg _ (by
      simp only [decide_eq_true_eq, List.getD_cons_zero, List.getD_cons_succ]
      rintro ⟨-, hcon⟩
      linarith)]
    rw [List.find?_cons_of_neg _ (by
      simp only [decide_eq_true_eq, List.getD_cons_zero, List.getD_cons_succ]
      rintro ⟨-, hcon⟩
      linarith)]
    rw [List.find?_cons_of_neg _ (by
      simp only [decide_eq_true_eq, List.getD_cons_zero, List.getD_cons_succ]
      rintro ⟨-, hcon⟩
      linarith)]
    rw [List.find?_cons_of_neg _ (by
      simp only [decide_eq_true_eq, List.getD_cons_zero, List.getD_cons_succ]
      rintro ⟨-, hcon⟩
      linarith)]
    rw [List.find?_cons_of_neg _ (by
      simp only [decide_eq_true_eq, List.getD_cons_zero, List.getD_cons_succ]
      rintro ⟨-, hcon⟩
      linarith)]
    rw [List.find?_cons_of_neg _ (by
      simp only [decide_eq_true_eq, List.getD_cons_zero, List.getD_cons_succ]
      rintro ⟨-, hcon⟩
      linarith)]
    rw [List.find?_cons_of_pos _ (by
      simp only [decide_eq_true_eq, List.getD_cons_zero, List.getD_cons_succ]
      exact ⟨le_rfl, by linarith⟩)]
    rfl
  · unfold get_house_for_position
    rw [show List.range 11 = [0, 1, 2, 3, 4, 5, 6, 7, 8, 9, 10] from rfl]
    rw [List.find?_cons_of_neg _ (by
      simp only [decide_eq_true_eq, List.getD_cons_zero, List.getD_cons_succ]
      rintro ⟨-, hcon⟩
      linarith)]
    rw [List.find?_cons_of_neg _ (by
      simp only [decide_eq_true_eq, List.getD_cons_zero, List.getD_cons_succ]
      rintro ⟨-, hcon⟩
      linarith)]
    rw [List.find?_cons_of_neg _ (by
      simp only [decide_eq_true_eq, List.getD_cons_zero, List.getD_cons_succ]
      rintro ⟨-, hcon⟩
      linarith)]
    rw [List.find?_cons_of_neg _ (by
      simp only [decide_eq_true_eq, List.getD_cons_zero, List.getD_cons_succ]
      rintro ⟨-, hcon⟩
      linarith)]
    rw [List.find?_cons_of_neg _ (by
      simp only [decide_eq_true_eq, List.getD_cons_zero, List.getD_cons_succ]
      rintro ⟨-, hcon⟩
      linarith)]
    rw [List.find?_cons_of_neg _ (by
      simp only [decide_eq_true_eq, List.getD_cons_zero, List.getD_cons_succ]
      rintro ⟨-, hcon⟩
      linarith)]
    rw [List.find?_cons_of_neg _ (by
      simp only [decide_eq_true_eq, List.getD_cons_zero, List.getD_cons_succ]
      rintro ⟨-, hcon⟩
      linarith)]
    rw [List.find?_cons_of_neg _ (by
      simp only [decide_eq_true_eq, List.getD_cons_zero, List.getD_cons_succ]
      rintro ⟨-, hcon⟩
      linarith)]
    rw [List.find?_cons_of_pos _ (by
      simp only [decide_eq_true_eq, List.getD_cons_zero, List.getD_cons_succ]
      exact ⟨le_rfl, by linarith⟩)]
    rfl
  · unfold get_house_for_position
    rw [show List.range 11 = [0, 1, 2, 3, 4, 5, 6, 7, 8, 9, 10] from rfl]
    rw [List.find?_cons_of_neg _ (by
      simp only [decide_eq_true_eq, List.getD_cons_zero, List.getD_cons_succ]
      rintro ⟨-, hcon⟩
      linarith)]
    rw [List.find?_cons_of_neg _ (by
      simp only [decide_eq_true_eq, List.getD_cons_zero, List.getD_cons_succ]
      rintro ⟨-, hcon⟩
      linarith)]
    rw [List.find?_cons_of_neg _ (by
      simp only [decide_eq_true_eq, List.getD_cons_zero, List.getD_cons_succ]
      rintro ⟨-, hcon⟩
      linarith)]
    rw [List.find?_cons_of_neg _ (by
      simp only [decide_eq_true_eq, List.getD_cons_zero, List.getD_cons_succ]
      rintro ⟨-, hcon⟩
      linarith)]
    rw [List.find?_cons_of_neg _ (by
      simp only [decide_eq_true_eq, List.getD_cons_zero, List.getD_cons_succ]
      rintro ⟨-, hcon⟩
      linarith)]
    rw [List.find?_cons_of_neg _ (by
      simp only [decide_eq_true_eq, List.getD_cons_zero, List.getD_cons_succ]
      rintro ⟨-, hcon⟩
      linarith)]
    rw [List.find?_cons_of_neg _ (by
      simp only [decide_eq_true_eq, List.getD_cons_zero, List.getD_cons_succ]
      rintro ⟨-, hcon⟩
      linarith)]
    rw [List.find?_cons_of_neg _ (by
      simp only [decide_eq_true_eq, List.getD_cons_zero, List.getD_cons_succ]
      rintro ⟨-, hcon⟩
      linarith)]
    rw [List.find?_cons_of_neg _ (by
      simp only [decide_eq_true_eq, List.getD_cons_zero, List.getD_cons_succ]
      rintro ⟨-, hcon⟩
      linarith)]
    rw [List.find?_cons_of_pos _ (by
      simp only [decide_eq_true_eq, List.getD_cons_zero, List.getD_cons_succ]
      exact ⟨le_rfl, by linarith⟩)]
    rfl
  · unfold get_house_for_position
    rw [show List.range 11 = [0, 1, 2, 3, 4, 5, 6, 7, 8, 9, 10] from rfl]
    rw [List.find?_cons_of_neg _ (by
      simp only [decide_eq_true_eq, List.getD_cons_zero, List.getD_cons_succ]
      rintro ⟨-, hcon⟩
      linarith)]
    rw [List.find?_cons_of_neg _ (by
      simp only [decide_eq_true_eq, List.getD_cons_zero, List.getD_cons_succ]
      rintro ⟨-, hcon⟩
      linarith)]
    rw [List.find?_cons_of_neg _ (by
      simp only [decide_eq_true_eq, List.getD_cons_zero, List.getD_cons_succ]
      rintro ⟨-, hcon⟩
      linarith)]
    rw [List.find?_cons_of_neg _ (by
      simp only [decide_eq_true_eq, List.getD_cons_zero, List.getD_cons_succ]
      rintro ⟨-, hcon⟩
      linarith)]
    rw [List.find?_cons_of_neg _ (by
      simp only [decide_eq_true_eq, List.getD_cons_zero, List.getD_cons_succ]
      rintro ⟨-, hcon⟩
      linarith)]
    rw [List.find?_cons_of_neg _ (by
      simp only [decide_eq_true_eq, List.getD_cons_zero, List.getD_cons_succ]
      rintro ⟨-, hcon⟩
      linarith)]
    rw [List.find?_cons_of_neg _ (by
      simp only [decide_eq_true_eq, List.getD_cons_zero, List.getD_cons_succ]
      rintro ⟨-, hcon⟩
      linarith)]
    rw [List.find?_cons_of_neg _ (by
      simp only [decide_eq_true_eq, List.getD_cons_zero, List.getD_cons_succ]
      rintro ⟨-, hcon⟩
      linarith)]
    rw [List.find?_cons_of_neg _ (by
      simp only [decide_eq_true_eq, List.getD_cons_zero, List.getD_cons_succ]
      rintro ⟨-, hcon⟩
      linarith)]
    rw [List.find?_cons_of_neg _ (by
      simp only [decide_eq_true_eq, List.getD_cons_zero, List.getD_cons_succ]
      rintro ⟨-, hcon⟩
      linarith)]
    rw [List.find?_cons_of_pos _ (by
      simp only [decide_eq_true_eq, List.getD_cons_zero, List.getD_cons_succ]
      exact ⟨le_rfl, by linarith⟩)]
    rfl
  · unfold get_house_for_position
    rw [show List.range 11 = [0, 1, 2, 3, 4, 5, 6, 7, 8, 9, 10] from rfl]
    rw [List.find?_eq_none.mpr (by
      intro j hj
      fin_cases hj <;>
        simp only [decide_eq_true_eq, List.getD_cons_zero, List.getD_cons_succ] <;>
        rintro ⟨-, hcon⟩ <;> linarith)]
    simp only [List.getD_cons_zero, List.getD_cons_succ]
    rw [if_pos (Or.inl ⟨le_rfl, hhi⟩)]
    rfl

/-- Closed instance of `house_of_cusp_roundtrip`: with equal-house
cusps starting at 0° Aries, cusp 0 maps to house 1. -/
theorem house_of_cusp_roundtrip_witness :
    get_house_for_position [0, 30, 60, 90, 120, 150, 180, 210, 240, 270, 300, 330]
      ([0, 30, 60, 90, 120, 150, 180, 210, 240, 270, 300, 330].getD 0 0) = toString (0 + 1) :=
  house_of_cusp_roundtrip 0 30 60 90 120 150 180 210 240 270 300 330
    (by norm_num) (by norm_num) (by norm_num) (by norm_num) (by norm_num) (by norm_num)
    (by norm_num) (by norm_num) (by norm_num) (by norm_num) (by norm_num)
    (by norm_num) (by norm_num) 0 (by norm_num)
